import Mathlib

/-!
Shallow embedding of the o2land/o2autodaikin climate-control sketches.

The repository contains sibling Arduino/Particle sketch variants that drive a
Daikin AC unit from temperature/humidity/heat-index readings:

* `src/unnamed/part_000` (first sketch)       — variant 1, namespace `V1`
* `src/Particle_O2_Daikin_2`                  — variant 2, namespace `V2`
* `src/Particle_O2_Daikin_3`                  — variant 3, namespace `V3`
* `src/Particle_O2_Daikin_5`                  — variant 5, namespace `V5`
* `src/Particle_O2_Daikin_7`                  — variant 7, namespace `V7`

Arduino `float` values are embedded as `ℚ`; `elapsedMillis` counters as `ℕ`
millisecond counts that an explicit `advance` function increments; serial
actuation commands (`atc1`, `atm1`, `ate1`, `atd0`, `attNN`, `atfN`, and the
external-fan IFTTT events) as an inductive `Cmd`.  Each loop iteration of the
control code is a `tick` function from state to state plus the list of emitted
commands, tagged with the program location (`Src`) that emitted them.
-/

/-- Operating mode (`MODE_OFF` / `MODE_COOLING` / `MODE_DEHUMIDIFIER` / `MODE_FAN`). -/
inductive Mode where
  | off
  | cooling
  | dehumidifier
  | fanOnly
deriving DecidableEq, Repr

/-- Actuation commands sent over `Serial1` (or the `o2fan` IFTTT event). -/
inductive Cmd where
  | acOn                 -- "atc1"
  | dehOn                -- "atm1"
  | fanOnlyOn            -- "ate1"
  | acOff                -- "atd0"
  | setTemp (n : ℕ)      -- "attNN"
  | setFan (n : ℕ)       -- "atfN"
  | extFanOn             -- Particle.publish("o2fan", "ON")
  | extFanOff            -- Particle.publish("o2fan", "OFF")
deriving DecidableEq, Repr

/-- The commands that set `currentMode` and reset the dwell
(`elapsed_remain_mode_timer` / `elapsed_keep_onoff_timer`) timer. -/
def Cmd.resetsDwell : Cmd → Bool
  | .acOn | .dehOn | .fanOnlyOn | .acOff => true
  | _ => false

/-- Program location that emitted a command. -/
inductive Src where
  | pause      -- the Auto Pause block
  | schedOff   -- the auto-off-timer block
  | schedOn    -- the auto-on-timer block
  | auto       -- the hysteresis Environmental Control block
  | mustOff    -- variant 1's MUST_OFF_TIMER block
  | hHours     -- H-hours / OFFOK temperature-mode switching block
deriving DecidableEq, Repr

/-! ### Arduino `String` primitives on `List Char` -/

/-- The character list of a string literal. -/
def strOf (s : String) : List Char := s.data

/-- `String.indexOf(pat)` : index of the first occurrence of `pat`, if any
(Arduino returns `-1` when absent, embedded as `none`). -/
def idxOf (pat : List Char) : List Char → Option ℕ
  | [] => if pat.isPrefixOf ([] : List Char) then some 0 else none
  | c :: t => if pat.isPrefixOf (c :: t) then some 0 else (idxOf pat t).map (· + 1)

/-- Whether `pat` occurs in `s` (`indexOf(pat) > -1`). -/
def hasSub (s pat : List Char) : Bool := (idxOf pat s).isSome

/-- `String.substring(a, b)` : characters from index `a` (inclusive) to `b` (exclusive). -/
def subRange (s : List Char) (a b : ℕ) : List Char := (s.take b).drop a

/-- Leading decimal digits of a character list, with the remaining characters. -/
def takeDigits : List Char → List ℕ × List Char
  | [] => ([], [])
  | c :: t =>
    if ('0' ≤ c ∧ c ≤ '9') then
      let r := takeDigits t
      ((c.toNat - '0'.toNat) :: r.1, r.2)
    else
      ([], c :: t)

/-- Value of a most-significant-first digit list. -/
def natOfDigits (ds : List ℕ) : ℕ := ds.foldl (fun a d => a * 10 + d) 0

/-- Arduino `String::toInt` (`atol` semantics restricted to an optional sign and
leading digits; anything else parses as `0`). -/
def toIntZ : List Char → ℤ
  | '-' :: t => -(natOfDigits (takeDigits t).1 : ℤ)
  | l => (natOfDigits (takeDigits l).1 : ℤ)

/-- Arduino `String::toFloat` (`strtod` semantics restricted to an optional sign,
leading digits, and an optional fraction; anything else parses as `0`). -/
def toFloatQ (l : List Char) : ℚ :=
  let core : List Char → ℚ := fun l =>
    let (ip, rest) := takeDigits l
    match rest with
    | '.' :: t =>
      let (fp, _) := takeDigits t
      (natOfDigits ip : ℚ) + (natOfDigits fp : ℚ) / ((10 : ℚ) ^ fp.length)
    | _ => (natOfDigits ip : ℚ)
  match l with
  | '-' :: t => -(core t)
  | _ => core l

/-- `x & 0xFFFF` applied to a (possibly negative, two's-complement) integer. -/
def and16 (z : ℤ) : ℕ := (z % 65536).toNat

/-! ### Response Line Parser

All variants share the same CR-terminated line accumulator and `>R=` extraction
(variant 7, `loop`, lines 563–712).  `Rx` is the projection of the sketch state
the parser touches. -/

/-- State touched by the UART line parser: the accumulating line buffer and the
stored sensor reading fields. -/
structure Rx where
  recvLine : List Char
  currentRh : ℚ
  currentTemp : ℚ
  currentHI : ℚ
  currentReadCount : ℕ
deriving DecidableEq, Repr

/-- The four-field extraction performed on a `>R=` line: locate `R=`, a comma in
the suffix from there, `T=`, its comma, `H=`, its comma, then `C=`; any failed
lookup aborts with `none` (the sketch leaves `xtracted == false`). -/
def extractLine (line : List Char) : Option (ℚ × ℚ × ℚ × ℕ) :=
  match idxOf (strOf "R=") line with
  | none => none
  | some iR =>
    match idxOf (strOf ",") (line.drop iR) with
    | none => none
    | some cR =>
      let xRh := toFloatQ (subRange line (iR + 2) (cR + iR))
      match idxOf (strOf "T=") line with
      | none => none
      | some iT =>
        match idxOf (strOf ",") (line.drop iT) with
        | none => none
        | some cT =>
          let xTemp := toFloatQ (subRange line (iT + 2) (cT + iT))
          match idxOf (strOf "H=") line with
          | none => none
          | some iH =>
            match idxOf (strOf ",") (line.drop iH) with
            | none => none
            | some cH =>
              let xHI := toFloatQ (subRange line (iH + 2) (cH + iH))
              match idxOf (strOf "C=") line with
              | none => none
              | some iC =>
                some (xRh, xTemp, xHI, and16 (toIntZ (line.drop (iC + 2))))

/-- Carriage return. -/
def crChar : Char := Char.ofNat 13

/-- Line feed. -/
def lfChar : Char := Char.ofNat 10

/-- One step of the UART receive loop: on CR, run the `>R=` extraction and apply
the fields only on success, then clear the buffer unconditionally; LF is
ignored; any other byte is appended to the buffer. -/
def rxByte (s : Rx) (c : Char) : Rx :=
  if c = crChar then
    let s' :=
      if (strOf ">R=").isPrefixOf s.recvLine then
        match extractLine s.recvLine with
        | some (r, t, hi, cnt) =>
          { s with currentRh := r, currentTemp := t, currentHI := hi, currentReadCount := cnt }
        | none => s
      else s
    { s' with recvLine := [] }
  else if c = lfChar then s
  else { s with recvLine := s.recvLine ++ [c] }

/-- C6: on a CR terminating a line that starts with the `>R=` sentinel but in
which one of the four keyed fields cannot be located (the extraction chain
fails), none of the stored reading fields change; and on every CR the line
buffer is cleared regardless of extraction success. -/
theorem claim6_no_partial_update (s : Rx)
    (hsent : (strOf ">R=").isPrefixOf s.recvLine = true)
    (hmiss : extractLine s.recvLine = none) :
    (rxByte s crChar).currentRh = s.currentRh ∧
    (rxByte s crChar).currentTemp = s.currentTemp ∧
    (rxByte s crChar).currentHI = s.currentHI ∧
    (rxByte s crChar).currentReadCount = s.currentReadCount ∧
    (rxByte s crChar).recvLine = [] ∧
    (∀ s2 : Rx, (rxByte s2 crChar).recvLine = []) := by
  refine ⟨?_, ?_, ?_, ?_, ?_, fun s2 => ?_⟩
  · simp [rxByte, hsent, hmiss]
  · simp [rxByte, hsent, hmiss]
  · simp [rxByte, hsent, hmiss]
  · simp [rxByte, hsent, hmiss]
  · simp [rxByte]
  · simp [rxByte]

/-- Witness for C6 at the concrete line `">R=55"` (sentinel present, comma after
`R=` missing so extraction aborts). -/
theorem claim6_no_partial_update_witness :
    (rxByte { recvLine := strOf ">R=55", currentRh := 1, currentTemp := 2,
              currentHI := 3, currentReadCount := 4 } crChar).currentTemp = 2 :=
  (claim6_no_partial_update
    { recvLine := strOf ">R=55", currentRh := 1, currentTemp := 2,
      currentHI := 3, currentReadCount := 4 }
    (by decide) (by decide)).2.1

/-! ### Variant 7 (`src/Particle_O2_Daikin_7/Daikin_Control_Particle.ino`) -/

namespace V7

/-- `DH_NEED_AC_HIGH` = 25.50 °C. -/
def DH_NEED_AC_HIGH : ℚ := mkRat 51 2

/-- `TEMP_TOO_HIGH` = 27.60 °C (auto-reenable threshold). -/
def TEMP_TOO_HIGH : ℚ := mkRat 138 5

/-- Control-relevant globals of variant 7. -/
structure State where
  currentMode : Mode
  remainModeMs : ℕ        -- elapsed_remain_mode_timer (ms)
  systemUpMs : ℕ          -- elapsed_system_up_timer (ms)
  dhCheckMs : ℕ           -- timeElapsedDHCheck (ms)
  currentTemp : ℚ
  currentRh : ℚ
  currentHI : ℚ
  currentReadCount : ℕ
  rht_control_on : Bool
  autoOffTimerHour : ℤ
  auto_pause : Bool
  auto_reenable_rht : Bool
  currentACsetting : ℕ
  currentFANsetting : ℕ
  DHNeedAC : Bool
deriving DecidableEq, Repr

/-- State after `setup()`. -/
def initState : State where
  currentMode := .off
  remainModeMs := 0
  systemUpMs := 0
  dhCheckMs := 0
  currentTemp := 0
  currentRh := 0
  currentHI := 0
  currentReadCount := 0
  rht_control_on := false
  autoOffTimerHour := 25
  auto_pause := false
  auto_reenable_rht := false
  currentACsetting := 24   -- AC_START_TEMP
  currentFANsetting := 6
  DHNeedAC := false

/-- Advance every free-running `elapsedMillis` counter by `d` milliseconds. -/
def advance (d : ℕ) (s : State) : State :=
  { s with remainModeMs := s.remainModeMs + d,
           systemUpMs := s.systemUpMs + d,
           dhCheckMs := s.dhCheckMs + d }

/-- Store a successfully extracted sensor reading (count masked to 16 bits). -/
def applyReading (r t hi : ℚ) (cnt : ℕ) (s : State) : State :=
  { s with currentRh := r, currentTemp := t, currentHI := hi,
           currentReadCount := cnt % 65536 }

/-- `daikin_ac_on()`: send `atc1`, set cooling mode, reset the dwell timer. -/
def daikin_ac_on (s : State) : State × List Cmd :=
  ({ s with currentMode := .cooling, remainModeMs := 0 }, [Cmd.acOn])

/-- `daikin_dehumidifier_on()`: send `atm1`, set dehumidifier mode, reset dwell. -/
def daikin_dehumidifier_on (s : State) : State × List Cmd :=
  ({ s with currentMode := .dehumidifier, remainModeMs := 0 }, [Cmd.dehOn])

/-- `daikin_fan_on()`: send `ate1`, set fan-only mode, reset dwell. -/
def daikin_fan_on (s : State) : State × List Cmd :=
  ({ s with currentMode := .fanOnly, remainModeMs := 0 }, [Cmd.fanOnlyOn])

/-- `daikin_off()`: send `atd0`, set mode off, reset dwell. -/
def daikin_off (s : State) : State × List Cmd :=
  ({ s with currentMode := .off, remainModeMs := 0 }, [Cmd.acOff])

/-- `daikin_ac_on_set_temp(setTemp)`: for 22–26 send `attNN`, the night fan
speed, then `daikin_ac_on`; otherwise only log. -/
def daikin_ac_on_set_temp (n : ℕ) (s : State) : State × List Cmd :=
  if 22 ≤ n ∧ n ≤ 26 then
    let a := daikin_ac_on s
    (a.1, Cmd.setTemp n :: Cmd.setFan 6 :: a.2)
  else (s, [])

/-- `ac_setting_down()`: one degree down, saturating at `AC_SETTING_LOW = 24`. -/
def ac_setting_down (s : State) : State × List Cmd :=
  if 24 < s.currentACsetting then
    let s' := { s with currentACsetting := s.currentACsetting - 1 }
    daikin_ac_on_set_temp s'.currentACsetting s'
  else (s, [])

/-- `ac_setting_up()`: one degree up, saturating at `AC_SETTING_HIGH = 26`. -/
def ac_setting_up (s : State) : State × List Cmd :=
  if s.currentACsetting < 26 then
    let s' := { s with currentACsetting := s.currentACsetting + 1 }
    daikin_ac_on_set_temp s'.currentACsetting s'
  else (s, [])

/-- `ac_fan_setting()`: send `atfN` (default `atf6`), then `daikin_ac_on`. -/
def ac_fan_setting (s : State) : State × List Cmd :=
  let fanCmd := Cmd.setFan (if 1 ≤ s.currentFANsetting ∧ s.currentFANsetting ≤ 5
                            then s.currentFANsetting else 6)
  let a := daikin_ac_on s
  (a.1, fanCmd :: a.2)

/-- `fan_speed_up()`: lower the `atfN` number (higher speed), floor 1. -/
def fan_speed_up (s : State) : State × List Cmd :=
  let s' := { s with currentFANsetting :=
                if s.currentFANsetting ≤ 1 then 1 else s.currentFANsetting - 1 }
  ac_fan_setting s'

/-- `fan_speed_down()`: raise the `atfN` number (lower speed), ceiling 6. -/
def fan_speed_down (s : State) : State × List Cmd :=
  let s' := { s with currentFANsetting :=
                if 6 ≤ s.currentFANsetting then 6 else s.currentFANsetting + 1 }
  ac_fan_setting s'

/-- Outcome of `myHandler`'s first-match-wins `indexOf` dispatch chain. -/
inductive HKind where
  | kAuto | kOff | kAutoOffSet | kPause | kCoolOn
  | kMoreFan | kLessFan | kMaxFan | kQuietFan
  | kTooHot | kTooCold | kDryingOn | kNone
deriving DecidableEq, Repr

/-- The `if/else if` dispatch chain of `myHandler` (substring search, first
match wins). -/
def classify (data : List Char) : HKind :=
  if hasSub data (strOf "daikin-auto") then .kAuto
  else if hasSub data (strOf "daikin-off") then .kOff
  else if hasSub data (strOf "auto-off-") then .kAutoOffSet
  else if hasSub data (strOf "auto-pause") then .kPause
  else if hasSub data (strOf "cool-on-") then .kCoolOn
  else if hasSub data (strOf "more-fan") then .kMoreFan
  else if hasSub data (strOf "less-fan") then .kLessFan
  else if hasSub data (strOf "max-fan") then .kMaxFan
  else if hasSub data (strOf "quiet-fan") then .kQuietFan
  else if hasSub data (strOf "too-hot") then .kTooHot
  else if hasSub data (strOf "too-cold") then .kTooCold
  else if hasSub data (strOf "drying-on") then .kDryingOn
  else .kNone

/-- The hour parsed by the `auto-off-` branch. -/
def autoOffArg (data : List Char) : ℤ :=
  toIntZ (data.drop ((idxOf (strOf "auto-off-") data).getD 0 + 9))

/-- The degree parsed by the `cool-on-` branch. -/
def coolOnArg (data : List Char) : ℤ :=
  toIntZ (data.drop ((idxOf (strOf "cool-on-") data).getD 0 + 8))

/-- `myHandler(event, data)`: the remote command handler. -/
def myHandler (data : List Char) (s : State) : State × List Cmd :=
  match classify data with
  | .kAuto =>
    ({ s with remainModeMs := 60 * 60000, systemUpMs := 0, currentMode := .off,
              currentACsetting := 24, currentFANsetting := 6,
              auto_reenable_rht := false, auto_pause := false,
              rht_control_on := true }, [])
  | .kOff =>
    let a := daikin_off { s with rht_control_on := false }
    ({ a.1 with currentACsetting := 24, currentFANsetting := 6,
                auto_reenable_rht := false, auto_pause := false }, a.2)
  | .kAutoOffSet =>
    if 10 ≤ data.length then
      let v := autoOffArg data
      ({ s with autoOffTimerHour := if 0 ≤ v ∧ v ≤ 24 then v else 25 }, [])
    else (s, [])
  | .kPause => ({ s with auto_pause := !s.auto_pause }, [])
  | .kCoolOn =>
    if data.length = 10 then
      let v := coolOnArg data
      if 22 ≤ v ∧ v ≤ 26 then
        let a := daikin_ac_on s
        ({ a.1 with currentACsetting := v.toNat, currentFANsetting := 6,
                    rht_control_on := false },
         Cmd.setTemp v.toNat :: Cmd.setFan 6 :: a.2)
      else (s, [])
    else (s, [])
  | .kMoreFan => fan_speed_up s
  | .kLessFan => fan_speed_down s
  | .kMaxFan => ac_fan_setting { s with currentFANsetting := 1 }
  | .kQuietFan => ac_fan_setting { s with currentFANsetting := 6 }
  | .kTooHot => ac_setting_down s
  | .kTooCold => ac_setting_up s
  | .kDryingOn =>
    let a := daikin_dehumidifier_on s
    ({ a.1 with currentACsetting := 24, currentFANsetting := 6,
                rht_control_on := false }, a.2)
  | .kNone => (s, [])

/-- Auto Pause block (`loop`, lines 459–486): at 3:30 with the unit on, turn it
off and suspend control; at 3:40 with the unit off, convert the pause into an
armed auto-reenable. -/
def pauseStep (hour minute : ℕ) (s : State) : State × List (Src × Cmd) :=
  if s.auto_pause = true ∧ s.currentMode ≠ Mode.off ∧ hour = 3 ∧ minute = 30 then
    let a := daikin_off s
    ({ a.1 with rht_control_on := false, auto_reenable_rht := false },
     a.2.map (fun c => (Src.pause, c)))
  else if s.auto_pause = true ∧ s.currentMode = Mode.off ∧ hour = 3 ∧ minute = 40 then
    ({ s with auto_pause := false, auto_reenable_rht := true }, [])
  else (s, [])

/-- Auto-reenable block (`loop`, lines 491–504): with the reenable armed, a
valid reading above `TEMP_TOO_HIGH = 27.60` restores RHT control. -/
def reenableStep (s : State) : State :=
  if s.auto_reenable_rht = true ∧ 0 < s.currentTemp ∧ TEMP_TOO_HIGH < s.currentTemp then
    { s with auto_reenable_rht := false, rht_control_on := true }
  else s

/-- Auto-off-timer block (`loop`, lines 510–527): when the hour matches, disable
control, clear pause/reenable, command off, and clear the slot to 25. -/
def autoOffStep (hour : ℕ) (s : State) : State × List (Src × Cmd) :=
  if (hour : ℤ) = s.autoOffTimerHour then
    let a := daikin_off { s with rht_control_on := false, auto_reenable_rht := false,
                                 auto_pause := false }
    ({ a.1 with autoOffTimerHour := 25 }, a.2.map (fun c => (Src.schedOff, c)))
  else (s, [])

/-- First half of the `DHNeedAC` decision (`loop`, lines 726–740): pick AC when
the temperature is outside `[DH_LOW, DH_HIGH] = [23, 27]`, otherwise switch to
the dehumidifier. -/
def dhStepA (s : State) : State × List Cmd :=
  if ((27 : ℚ) < s.currentTemp ∨ s.currentTemp < (23 : ℚ)) ∧
      s.currentMode ≠ Mode.cooling then
    daikin_ac_on_set_temp s.currentACsetting s
  else if s.currentMode ≠ Mode.dehumidifier then
    let d := daikin_dehumidifier_on s
    ({ d.1 with dhCheckMs := 0, DHNeedAC := false }, d.2)
  else (s, [])

/-- Second half (`loop`, lines 743–761): in dehumidifier mode, after
`DH_NEED_AC_TIME = 15` minutes with the temperature above
`DH_NEED_AC_HIGH = 25.5`, fall back to AC. -/
def dhStepB (a : State) : State × List Cmd :=
  if a.currentMode = Mode.dehumidifier then
    if 15 * 60000 < a.dhCheckMs then
      if DH_NEED_AC_HIGH < a.currentTemp then
        let e := daikin_ac_on_set_temp a.currentACsetting a
        ({ e.1 with DHNeedAC := true }, e.2)
      else ({ a with dhCheckMs := 0 }, [])
    else (a, [])
  else (a, [])

/-- Environmental Control block (`loop`, lines 719–773).  `lastMin` is
`lastCommandSentInMinutes` as computed at the top of `loop`. -/
def ctrlStep (lastMin : ℕ) (s : State) : State × List Cmd :=
  if s.rht_control_on = true ∧ 0 < s.currentTemp then
    if 10 ≤ lastMin then
      if s.DHNeedAC = true ∧ s.currentTemp ≤ DH_NEED_AC_HIGH then
        let a := dhStepA s
        let b := dhStepB a.1
        (b.1, a.2 ++ b.2)
      else (s, [])
    else (s, [])
  else (s, [])

/-- One `loop()` iteration of variant 7 (UART handling modeled separately as
reading events): pause, reenable, auto-off, then environmental control. -/
def tick (hour minute : ℕ) (s : State) : State × List (Src × Cmd) :=
  let lastMin := s.remainModeMs / 60000
  let p := pauseStep hour minute s
  let s2 := reenableStep p.1
  let q := autoOffStep hour s2
  let r := ctrlStep lastMin q.1
  (r.1, p.2 ++ q.2 ++ r.2.map (fun c => (Src.auto, c)))

/-- Trace events: free-running time, a parsed sensor reading, or one decision
tick of `loop()` at a given wall-clock hour/minute. -/
inductive Ev where
  | delay (d : ℕ)
  | reading (rh t hi : ℚ) (cnt : ℕ)
  | tick (hour minute : ℕ)
deriving DecidableEq, Repr

/-- Run a sequence of events from a state, time-stamping every emitted command
with the absolute time (ms) of the tick that issued it. -/
def run (s : State) (now : ℕ) : List Ev → State × List (ℕ × Src × Cmd)
  | [] => (s, [])
  | Ev.delay d :: evs => run (advance d s) (now + d) evs
  | Ev.reading r t hi cnt :: evs => run (applyReading r t hi cnt s) now evs
  | Ev.tick h m :: evs =>
    ((run (tick h m s).1 now evs).1,
     (tick h m s).2.map (fun pc => (now, pc.1, pc.2)) ++ (run (tick h m s).1 now evs).2)

end V7

/-! ### Dwell spacing of variant 7's hysteresis commands (claim C1) -/

/-- `chainOK last l` walks a time-stamped command list keeping the timestamp of
the most recent dwell-resetting command; it checks that every dwell-resetting
command emitted by the hysteresis block (`Src.auto`) comes at least
`REMAIN_MODE_TIME = 10` minutes (600000 ms) after the previous dwell-resetting
command of any origin. -/
def chainOK : Option ℕ → List (ℕ × Src × Cmd) → Bool
  | _, [] => true
  | last, (t, src, c) :: rest =>
    if c.resetsDwell then
      (if src = Src.auto then
        (match last with
         | some tl => decide (tl + 600000 ≤ t)
         | none => true)
       else true) && chainOK (some t) rest
    else chainOK last rest

/-- The timestamp of the last dwell-resetting command of a stamped list, seeded
with `last`. -/
def chainLast : Option ℕ → List (ℕ × Src × Cmd) → Option ℕ
  | last, [] => last
  | last, (t, _, c) :: rest => chainLast (if c.resetsDwell then some t else last) rest

/-- The dwell timer equals the time since the last dwell-resetting command. -/
def lastRel (now : ℕ) (last : Option ℕ) (remainMs : ℕ) : Prop :=
  ∀ tl, last = some tl → tl + remainMs = now

theorem chainOK_append (l1 l2 : List (ℕ × Src × Cmd)) (last : Option ℕ) :
    chainOK last (l1 ++ l2) = (chainOK last l1 && chainOK (chainLast last l1) l2) := by
  induction l1 generalizing last with
  | nil => simp [chainOK, chainLast]
  | cons e t ih =>
    obtain ⟨a, src, c⟩ := e
    by_cases hc : c.resetsDwell = true <;>
      simp [chainOK, chainLast, hc, ih, Bool.and_assoc]

theorem chainLast_stamp (now : ℕ) (last : Option ℕ) (l : List (Src × Cmd)) :
    chainLast last (l.map (fun pc => (now, pc.1, pc.2))) =
      if l.any (fun pc => pc.2.resetsDwell) then some now else last := by
  induction l generalizing last with
  | nil => simp [chainLast]
  | cons e t ih =>
    cases hc : e.2.resetsDwell
    · simp only [List.map_cons, chainLast, hc, if_neg Bool.false_ne_true, List.any_cons,
        Bool.false_or]
      exact ih last
    · simp [chainLast, hc, ih]

theorem chainOK_of_no_dwell (now : ℕ) (last : Option ℕ) (l : List (Src × Cmd))
    (h : l.all (fun pc => !pc.2.resetsDwell) = true) :
    chainOK last (l.map (fun pc => (now, pc.1, pc.2))) = true := by
  induction l generalizing last with
  | nil => simp [chainOK]
  | cons e t ih =>
    simp only [List.all_cons, Bool.and_eq_true, Bool.not_eq_true'] at h
    simp [chainOK, h.1, ih last h.2]

namespace V7

theorem pauseStep_spec (hour minute : ℕ) (s : State) :
    pauseStep hour minute s =
      ({ s with currentMode := Mode.off, remainModeMs := 0,
                rht_control_on := false, auto_reenable_rht := false },
       [(Src.pause, Cmd.acOff)]) ∨
    pauseStep hour minute s = ({ s with auto_pause := false, auto_reenable_rht := true }, []) ∨
    pauseStep hour minute s = (s, []) := by
  unfold pauseStep daikin_off
  split_ifs <;> simp

theorem reenableStep_spec (s : State) :
    reenableStep s = { s with auto_reenable_rht := false, rht_control_on := true } ∨
    reenableStep s = s := by
  unfold reenableStep
  split_ifs <;> simp

theorem reenableStep_not_armed (s : State) (h : s.auto_reenable_rht = false) :
    reenableStep s = s := by
  unfold reenableStep
  rw [if_neg]
  simp [h]

theorem autoOffStep_spec (hour : ℕ) (s : State) :
    ((hour : ℤ) = s.autoOffTimerHour ∧
      autoOffStep hour s =
        ({ s with rht_control_on := false, auto_reenable_rht := false, auto_pause := false,
                  currentMode := Mode.off, remainModeMs := 0, autoOffTimerHour := 25 },
         [(Src.schedOff, Cmd.acOff)])) ∨
    ((hour : ℤ) ≠ s.autoOffTimerHour ∧ autoOffStep hour s = (s, [])) := by
  unfold autoOffStep daikin_off
  split_ifs with h <;> simp [h]

theorem set_temp_spec (n : ℕ) (s : State) :
    daikin_ac_on_set_temp n s =
      ({ s with currentMode := Mode.cooling, remainModeMs := 0 },
       [Cmd.setTemp n, Cmd.setFan 6, Cmd.acOn]) ∨
    daikin_ac_on_set_temp n s = (s, []) := by
  unfold daikin_ac_on_set_temp daikin_ac_on
  split_ifs <;> simp

theorem dhStepA_spec (s : State) :
    dhStepA s = ({ s with currentMode := Mode.cooling, remainModeMs := 0 },
                 [Cmd.setTemp s.currentACsetting, Cmd.setFan 6, Cmd.acOn]) ∨
    dhStepA s = ({ s with currentMode := Mode.dehumidifier, remainModeMs := 0,
                          dhCheckMs := 0, DHNeedAC := false }, [Cmd.dehOn]) ∨
    dhStepA s = (s, []) := by
  unfold dhStepA daikin_dehumidifier_on
  split_ifs with h1 h2
  · rcases set_temp_spec s.currentACsetting s with h | h <;> simp [h]
  · simp
  · simp

theorem dhStepB_spec (a : State) (hT : a.currentTemp ≤ DH_NEED_AC_HIGH) :
    dhStepB a = (a, []) ∨ dhStepB a = ({ a with dhCheckMs := 0 }, []) := by
  unfold dhStepB
  split_ifs with h1 h2 h3
  · linarith
  · simp
  · simp
  · simp

theorem ctrlStep_spec (lm : ℕ) (s : State) :
    ((ctrlStep lm s).2 = [] ∧ (ctrlStep lm s).1.remainModeMs = s.remainModeMs ∧
      (ctrlStep lm s).1.rht_control_on = s.rht_control_on ∧
      (ctrlStep lm s).1.autoOffTimerHour = s.autoOffTimerHour ∧
      (ctrlStep lm s).1.currentACsetting = s.currentACsetting) ∨
    (10 ≤ lm ∧ s.rht_control_on = true ∧ (ctrlStep lm s).1.remainModeMs = 0 ∧
      (ctrlStep lm s).1.rht_control_on = s.rht_control_on ∧
      (ctrlStep lm s).1.autoOffTimerHour = s.autoOffTimerHour ∧
      (ctrlStep lm s).1.currentACsetting = s.currentACsetting ∧
      ((ctrlStep lm s).2 = [Cmd.setTemp s.currentACsetting, Cmd.setFan 6, Cmd.acOn] ∨
       (ctrlStep lm s).2 = [Cmd.dehOn])) := by
  unfold ctrlStep
  split_ifs with h1 h2 h3
  · have hT : s.currentTemp ≤ DH_NEED_AC_HIGH := h3.2
    rcases dhStepA_spec s with hA | hA | hA
    · rcases dhStepB_spec (dhStepA s).1 (by rw [hA]; exact hT) with hB | hB <;>
        · refine Or.inr ⟨h2, h1.1, ?_⟩
          rw [hA] at hB ⊢
          simp [hB]
    · rcases dhStepB_spec (dhStepA s).1 (by rw [hA]; exact hT) with hB | hB <;>
        · refine Or.inr ⟨h2, h1.1, ?_⟩
          rw [hA] at hB ⊢
          simp [hB]
    · rcases dhStepB_spec (dhStepA s).1 (by rw [hA]; exact hT) with hB | hB <;>
        · refine Or.inl ?_
          rw [hA] at hB ⊢
          simp [hB]
  · simp
  · simp
  · simp

theorem ctrlStep_not_on (lm : ℕ) (s : State) (h : s.rht_control_on = false) :
    ctrlStep lm s = (s, []) := by
  unfold ctrlStep
  rw [if_neg]
  simp [h]

theorem ctrlStep_no_reading (lm : ℕ) (s : State) (h : s.currentTemp = 0) :
    ctrlStep lm s = (s, []) := by
  unfold ctrlStep
  rw [if_neg]
  simp [h]

theorem pauseStep_temp (hour minute : ℕ) (s : State) :
    (pauseStep hour minute s).1.currentTemp = s.currentTemp := by
  rcases pauseStep_spec hour minute s with hp | hp | hp <;> rw [hp]

theorem reenableStep_temp (s : State) :
    (reenableStep s).currentTemp = s.currentTemp := by
  rcases reenableStep_spec s with h | h <;> rw [h]

theorem autoOffStep_temp (hour : ℕ) (s : State) :
    (autoOffStep hour s).1.currentTemp = s.currentTemp := by
  rcases autoOffStep_spec hour s with ⟨_, hq⟩ | ⟨_, hq⟩ <;> rw [hq]



end V7


theorem chainOK_autoDwell (now : ℕ) (last : Option ℕ)
    (h : ∀ tl, last = some tl → tl + 600000 ≤ now) :
    (match last with
     | some tl => decide (tl + 600000 ≤ now)
     | none => true) = true := by
  cases last with
  | none => rfl
  | some tl => simpa using h tl rfl

theorem lastRel_self (now : ℕ) : lastRel now (some now) 0 := by
  intro tl h
  injection h with h'
  omega

namespace V7

/-- Chain property of the tail of a tick (auto-off block followed by the
hysteresis block). -/
theorem chain_tail (hour lm now : ℕ) (t : State) (last : Option ℕ)
    (hrel : lastRel now last t.remainModeMs)
    (hlm : t.rht_control_on = true → 10 ≤ lm → 600000 ≤ t.remainModeMs) :
    chainOK last
      (((autoOffStep hour t).2 ++
        (ctrlStep lm (autoOffStep hour t).1).2.map (fun c => (Src.auto, c))).map
        (fun pc => (now, pc.1, pc.2))) = true ∧
    lastRel now
      (chainLast last
        (((autoOffStep hour t).2 ++
          (ctrlStep lm (autoOffStep hour t).1).2.map (fun c => (Src.auto, c))).map
          (fun pc => (now, pc.1, pc.2))))
      (ctrlStep lm (autoOffStep hour t).1).1.remainModeMs := by
  rcases autoOffStep_spec hour t with ⟨_, hq⟩ | ⟨_, hq⟩
  · -- auto-off fired: control is disabled afterwards, the decision block is idle
    rw [hq]
    rw [ctrlStep_not_on lm _ (by rfl)]
    refine ⟨?_, ?_⟩
    · simp [chainOK, Cmd.resetsDwell]
    · simp only [chainLast, Cmd.resetsDwell, List.map_cons, List.map_nil, List.append_nil]
      exact lastRel_self now
  · -- auto-off idle
    rw [hq]
    rcases ctrlStep_spec lm t with ⟨hc2, hcr, _⟩ | ⟨hlm10, hrht, hcr, _, _, _, hlist⟩
    · rw [hc2]
      exact ⟨by simp [chainOK], by simpa [chainLast, hcr] using hrel⟩
    · have h600 : 600000 ≤ t.remainModeMs := hlm hrht hlm10
      have hcond : ∀ tl, last = some tl → tl + 600000 ≤ now := by
        intro tl h
        have := hrel tl h
        omega
      rcases hlist with hl | hl <;> rw [hl] <;> constructor
      · cases last with
        | none => simp [chainOK, Cmd.resetsDwell]
        | some tl =>
          have := hcond tl rfl
          simp [chainOK, Cmd.resetsDwell, this]
      · simpa [chainLast, Cmd.resetsDwell, hcr] using lastRel_self now
      · cases last with
        | none => simp [chainOK, Cmd.resetsDwell]
        | some tl =>
          have := hcond tl rfl
          simp [chainOK, Cmd.resetsDwell, this]
      · simpa [chainLast, Cmd.resetsDwell, hcr] using lastRel_self now

end V7

namespace V7

/-- One variant-7 tick preserves the dwell-spacing chain invariant. -/
theorem tick_chain (hour minute now : ℕ) (s : State) (last : Option ℕ)
    (hrel : lastRel now last s.remainModeMs) :
    chainOK last ((tick hour minute s).2.map (fun pc => (now, pc.1, pc.2))) = true ∧
    lastRel now
      (chainLast last ((tick hour minute s).2.map (fun pc => (now, pc.1, pc.2))))
      (tick hour minute s).1.remainModeMs := by
  have hdiv : 10 ≤ s.remainModeMs / 60000 → 600000 ≤ s.remainModeMs := by
    intro h
    calc (600000 : ℕ) = 10 * 60000 := by norm_num
    _ ≤ s.remainModeMs / 60000 * 60000 := Nat.mul_le_mul_right 60000 h
    _ ≤ s.remainModeMs := Nat.div_mul_le_self s.remainModeMs 60000
  simp only [tick]
  rcases pauseStep_spec hour minute s with hp | hp | hp
  · -- pause fired: dwell reset, control disabled; reenable is disarmed
    rw [hp]
    rw [reenableStep_not_armed _ (by rfl)]
    have ht := chain_tail hour (s.remainModeMs / 60000) now
      ({ s with currentMode := Mode.off, remainModeMs := 0,
                rht_control_on := false, auto_reenable_rht := false })
      (some now) (lastRel_self now) (by intro h; simp at h)
    refine ⟨?_, ?_⟩
    · simp only [List.map_cons, List.map_append, List.cons_append, List.nil_append,
        chainOK, Cmd.resetsDwell]
      simpa using ht.1
    · simp only [List.map_cons, List.map_append, List.cons_append, List.nil_append,
        chainLast, Cmd.resetsDwell]
      simpa using ht.2
  · -- pause guard arm: no command, dwell unchanged
    rw [hp]
    rcases reenableStep_spec { s with auto_pause := false, auto_reenable_rht := true }
      with hre | hre
    · rw [hre]
      have ht := chain_tail hour (s.remainModeMs / 60000) now
        { s with auto_pause := false, auto_reenable_rht := false, rht_control_on := true }
        last hrel (fun _ h => hdiv h)
      simpa using ht
    · rw [hre]
      have ht := chain_tail hour (s.remainModeMs / 60000) now
        { s with auto_pause := false, auto_reenable_rht := true }
        last hrel (fun _ h => hdiv h)
      simpa using ht
  · -- pause idle
    rw [hp]
    rcases reenableStep_spec s with hre | hre
    · rw [hre]
      have ht := chain_tail hour (s.remainModeMs / 60000) now
        { s with auto_reenable_rht := false, rht_control_on := true }
        last hrel (fun _ h => hdiv h)
      simpa using ht
    · rw [hre]
      have ht := chain_tail hour (s.remainModeMs / 60000) now s
        last hrel (fun _ h => hdiv h)
      simpa using ht

end V7

namespace V7

/-- Along any run of delays, readings and ticks, every hysteresis-issued
dwell-resetting command respects the chain invariant. -/
theorem run_chain (evs : List Ev) : ∀ (s : State) (now : ℕ) (last : Option ℕ),
    lastRel now last s.remainModeMs →
    chainOK last (run s now evs).2 = true := by
  induction evs with
  | nil =>
    intro s now last _
    simp [run, chainOK]
  | cons e evs ih =>
    intro s now last hrel
    cases e with
    | delay d =>
      simp only [run]
      refine ih (advance d s) (now + d) last ?_
      intro tl h
      have := hrel tl h
      simp only [advance]
      omega
    | reading r t hi cnt =>
      simp only [run]
      refine ih _ now last ?_
      intro tl h
      simpa [applyReading] using hrel tl h
    | tick h m =>
      simp only [run]
      rw [chainOK_append, (tick_chain h m now s last hrel).1]
      simpa using ih (tick h m s).1 now _ (tick_chain h m now s last hrel).2

end V7

/-! ### Variant 1 (`src/unnamed/part_000`, first sketch) -/

namespace V1

/-- `RH_STD` = 60.50 %. -/
def RH_STD : ℚ := mkRat 121 2

/-- `TEMP_TOO_LOW_MODE1` = 23.95 °C. -/
def TEMP_TOO_LOW_MODE1 : ℚ := mkRat 479 20

/-- `TEMP_TOO_LOW_MODE2` = 24.95 °C. -/
def TEMP_TOO_LOW_MODE2 : ℚ := mkRat 499 20

/-- `HEAT_INDEX_TOO_HIGH` = 27.50. -/
def HEAT_INDEX_TOO_HIGH : ℚ := mkRat 55 2

/-- Control-relevant globals of variant 1. -/
structure State where
  currentMode : Mode
  mustOffMs : ℕ           -- elapsed_must_off_timer (ms)
  keepOnOffMs : ℕ         -- elapsed_keep_onoff_timer (ms)
  extremeCondMs : ℕ       -- elapsed_exterem_cond_timer (ms)
  currentTemp : ℚ
  currentRh : ℚ
  currentHI : ℚ
  currentReadCount : ℕ
  rhtDisabled : Bool
  current_temp_mode1 : Bool
  ac_already_off : Bool
  current_fan_mode_on : Bool
deriving DecidableEq, Repr

/-- State after `setup()` (must-off timer maximized, control disabled). -/
def initState : State where
  currentMode := .off
  mustOffMs := 720 * 60000
  keepOnOffMs := 0
  extremeCondMs := 0
  currentTemp := 0
  currentRh := 0
  currentHI := 0
  currentReadCount := 0
  rhtDisabled := true
  current_temp_mode1 := true
  ac_already_off := false
  current_fan_mode_on := false

/-- Advance every free-running `elapsedMillis` counter by `d` milliseconds. -/
def advance (d : ℕ) (s : State) : State :=
  { s with mustOffMs := s.mustOffMs + d, keepOnOffMs := s.keepOnOffMs + d,
           extremeCondMs := s.extremeCondMs + d }

/-- Store a successfully extracted sensor reading. -/
def applyReading (r t hi : ℚ) (cnt : ℕ) (s : State) : State :=
  { s with currentRh := r, currentTemp := t, currentHI := hi,
           currentReadCount := cnt % 65536 }

/-- `fan_on()`: publish the external-fan ON event only if it is off. -/
def fan_on (s : State) : State × List Cmd :=
  if s.current_fan_mode_on = false then
    ({ s with current_fan_mode_on := true }, [Cmd.extFanOn])
  else (s, [])

/-- `fan_off()`: publish the external-fan OFF event only if it is on. -/
def fan_off (s : State) : State × List Cmd :=
  if s.current_fan_mode_on = true then
    ({ s with current_fan_mode_on := false }, [Cmd.extFanOff])
  else (s, [])

/-- `daikin_ac_on()`: `atc1`, cooling mode, dwell reset, external fan off. -/
def daikin_ac_on (s : State) : State × List Cmd :=
  let f := fan_off { s with currentMode := Mode.cooling, keepOnOffMs := 0 }
  (f.1, Cmd.acOn :: f.2)

/-- `daikin_dehumidifier_on()`: `atm1`, dehumidifier mode, dwell reset, fan off. -/
def daikin_dehumidifier_on (s : State) : State × List Cmd :=
  let f := fan_off { s with currentMode := Mode.dehumidifier, keepOnOffMs := 0 }
  (f.1, Cmd.dehOn :: f.2)

/-- `daikin_off(turnFanOn)`: `atd0`, mode off, dwell reset, fan per argument. -/
def daikin_off (turnFanOn : Bool) (s : State) : State × List Cmd :=
  let s' := { s with currentMode := Mode.off, keepOnOffMs := 0 }
  let f := if turnFanOn then fan_on s' else fan_off s'
  (f.1, Cmd.acOff :: f.2)

/-- The mode-decision part of `loop()` run with `lastMin`/`offOK`/thresholds as
computed earlier in the same iteration (lines 523–610). -/
def decideStep (lastMin : ℕ) (offOK : Bool) (standardTemp tooLowTemp : ℚ) (s : State) :
    State × List Cmd :=
  if 25 ≤ lastMin then
    match s.currentMode with
    | Mode.off =>
      if standardTemp < s.currentTemp then daikin_ac_on s
      else if RH_STD < s.currentRh then daikin_dehumidifier_on s
      else (s, [])
    | Mode.cooling =>
      if s.currentTemp ≤ standardTemp then
        if RH_STD < s.currentRh then daikin_dehumidifier_on s
        else if s.currentTemp ≤ tooLowTemp then
          if offOK then
            if s.ac_already_off = false then
              let d := daikin_off true s
              ({ d.1 with ac_already_off := true }, d.2)
            else (s, [])
          else daikin_ac_on s
        else (s, [])
      else (s, [])
    | _ =>
      -- MODE_DEHUMIDIFIER (also the `else` arm of the source's mode switch)
      if s.currentTemp ≤ tooLowTemp then
        if offOK then
          if s.ac_already_off = false then
            let d := daikin_off true s
            ({ d.1 with ac_already_off := true }, d.2)
          else (s, [])
        else daikin_ac_on s
      else if (27 : ℚ) < s.currentTemp then daikin_ac_on s
      else (s, [])
  else (s, [])

/-- OFFOK-window temperature-mode tracking (lines 310–356): entering the window
sends `att25`, leaving it sends `att24`. -/
def windowStep (offOK : Bool) (s : State) : State × List (Src × Cmd) :=
  if offOK = true ∧ s.current_temp_mode1 = true then
    ({ s with current_temp_mode1 := false }, [(Src.hHours, Cmd.setTemp 25)])
  else if offOK = false ∧ s.current_temp_mode1 = false then
    ({ s with current_temp_mode1 := true }, [(Src.hHours, Cmd.setTemp 24)])
  else (s, [])

/-- Extreme-condition override (lines 504–520): at most once a minute, maximize
the keep-onoff timer so the next decision may run immediately. -/
def extremeStep (tooLowTemp : ℚ) (s : State) : State :=
  if ((s.currentMode = Mode.off ∧ HEAT_INDEX_TOO_HIGH ≤ s.currentHI) ∧
        s.currentMode ≠ Mode.cooling) ∨
     ((s.currentMode ≠ Mode.off ∧ s.currentTemp ≤ tooLowTemp) ∧
        s.currentMode = Mode.dehumidifier) then
    if 60000 ≤ s.extremeCondMs then
      { s with keepOnOffMs := 25 * 60000, extremeCondMs := 0 }
    else s
  else s

/-- MUST_OFF_TIMER block (lines 616–628): force off; while already off, repeat
the off command every `KEEP_ONOFF_TIMER` minutes. -/
def mustOffStep (lastMin : ℕ) (s : State) : State × List (Src × Cmd) :=
  if s.currentMode ≠ Mode.off then
    let d := daikin_off false s
    (d.1, d.2.map (fun c => (Src.mustOff, c)))
  else if 25 ≤ lastMin then
    let d := daikin_off false s
    (d.1, d.2.map (fun c => (Src.mustOff, c)))
  else (s, [])

/-- One `loop()` iteration of variant 1 (UART handling modeled separately):
OFFOK-window temperature-mode switching, extreme-condition timer override,
hysteresis decision, then the MUST_OFF_TIMER block. -/
def tick (hour minute : ℕ) (s : State) : State × List (Src × Cmd) :=
  let lastMin := s.keepOnOffMs / 60000
  let ignMin := s.mustOffMs / 60000
  let minutesOfToday := hour * 60 + minute
  let offOK := decide (240 ≤ minutesOfToday ∧ minutesOfToday ≤ 330)
  let standardTemp : ℚ := if offOK then 26 else 25
  let tooLowTemp : ℚ := if offOK then TEMP_TOO_LOW_MODE2 else TEMP_TOO_LOW_MODE1
  let w := windowStep offOK s
  if w.1.rhtDisabled = false then
    let s2 :=
      if ignMin < 720 then
        let d := decideStep lastMin offOK standardTemp tooLowTemp
          (extremeStep tooLowTemp w.1)
        (d.1, d.2.map (fun c => (Src.auto, c)))
      else (w.1, [])
    let s3 :=
      if 720 ≤ ignMin then mustOffStep lastMin s2.1 else (s2.1, [])
    (s3.1, w.2 ++ s2.2 ++ s3.2)
  else (w.1, w.2)

/-- `myHandler`: `daikin-auto`, `daikin-off`, `rht-disable`. -/
def myHandler (data : List Char) (s : State) : State × List Cmd :=
  if hasSub data (strOf "daikin-auto") then
    ({ s with mustOffMs := 0, keepOnOffMs := 25 * 60000,
              rhtDisabled := false, ac_already_off := false,
              currentMode := Mode.off }, [])
  else if hasSub data (strOf "daikin-off") then
    let d := daikin_off false { s with mustOffMs := 720 * 60000, rhtDisabled := false }
    (d.1, d.2)
  else if hasSub data (strOf "rht-disable") then
    ({ s with rhtDisabled := true }, [])
  else (s, [])

/-- Trace events for variant 1. -/
inductive Ev where
  | delay (d : ℕ)
  | reading (rh t hi : ℚ) (cnt : ℕ)
  | tick (hour minute : ℕ)
deriving DecidableEq, Repr

/-- Run a sequence of events, time-stamping the emitted commands. -/
def run (s : State) (now : ℕ) : List Ev → State × List (ℕ × Src × Cmd)
  | [] => (s, [])
  | Ev.delay d :: evs => run (advance d s) (now + d) evs
  | Ev.reading r t hi cnt :: evs => run (applyReading r t hi cnt s) now evs
  | Ev.tick h m :: evs =>
    ((run (tick h m s).1 now evs).1,
     (tick h m s).2.map (fun pc => (now, pc.1, pc.2)) ++ (run (tick h m s).1 now evs).2)

end V1

namespace V1

theorem decideStep_not_ready (lastMin : ℕ) (offOK : Bool) (standardTemp tooLowTemp : ℚ)
    (s : State) (h : ¬ 25 ≤ lastMin) :
    decideStep lastMin offOK standardTemp tooLowTemp s = (s, []) := by
  unfold decideStep
  rw [if_neg h]

theorem windowStep_no_auto (offOK : Bool) (s : State) :
    ((windowStep offOK s).2.any fun pc => decide (pc.1 = Src.auto) && pc.2.resetsDwell)
      = false := by
  unfold windowStep
  split_ifs <;> simp [Cmd.resetsDwell]

theorem mustOffStep_no_auto (lastMin : ℕ) (s : State) :
    ((mustOffStep lastMin s).2.any fun pc => decide (pc.1 = Src.auto) && pc.2.resetsDwell)
      = false := by
  unfold mustOffStep daikin_off fan_off
  split_ifs <;> simp [Cmd.resetsDwell]

/-- In variant 1 the hysteresis decision emits a dwell-resetting command only on
ticks whose `lastCommandSentInMinutes` (computed at the top of `loop`) already
shows at least `KEEP_ONOFF_TIMER = 25` minutes. -/
theorem tick_auto_guard (hour minute : ℕ) (s : State)
    (h : ¬ 25 ≤ s.keepOnOffMs / 60000) :
    ((tick hour minute s).2.any fun pc => decide (pc.1 = Src.auto) && pc.2.resetsDwell)
      = false := by
  simp only [tick]
  rw [decideStep_not_ready _ _ _ _ _ h]
  split_ifs <;>
    simp [List.any_append, windowStep_no_auto, mustOffStep_no_auto]

end V1

/-- Concrete variant-1 state right after a `daikin-auto` command arrives 100 s
after boot. -/
def claim1Start : V1.State :=
  (V1.myHandler (strOf "daikin-auto") (V1.advance 100000 V1.initState)).1

/-- Reading/tick/delay trace: a humid reading switches the unit to the
dehumidifier; one minute later the temperature has dropped to 23 °C, the
extreme-condition override maximizes the keep-onoff timer; one second after
that the decision block switches to cooling. -/
def claim1Evs : List V1.Ev :=
  [V1.Ev.reading 70 24 26 1, V1.Ev.tick 12 0,
   V1.Ev.delay 60000, V1.Ev.reading 70 23 25 2, V1.Ev.tick 12 1,
   V1.Ev.delay 1000, V1.Ev.tick 12 1]

/-- C1 (counterexample): in variant 1, the hysteresis engine issues a
dehumidifier-on command and then, 61 seconds later — far less than the
`KEEP_ONOFF_TIMER = 25`-minute minimum dwell — a cooling-on command, because
the extreme-condition block pre-loads the dwell timer with its maximum; no
schedule-triggered reset is involved. -/
theorem claim1_counterexample :
    (V1.run claim1Start 0 claim1Evs).2 =
      [(0, Src.auto, Cmd.dehOn), (61000, Src.auto, Cmd.acOn)] ∧
    61000 - 0 < 25 * 60000 := by
  constructor
  · decide
  · norm_num

/-- C1 (amended): every automatic hysteresis decision is guarded by
`dwellMinutes ≥ minimumDwell` at the tick that issues it, and every
mode-changing command resets the dwell timer; in variant 7 this gives the
claimed spacing — along any sequence of delays, sensor readings and decision
ticks, a hysteresis-issued mode-changing command comes at least
`REMAIN_MODE_TIME = 10` minutes after the previous mode-changing command of any
origin — but in variant 1 the extreme-condition override can pre-load the
dwell timer, so two automatic commands may fall closer together than
`KEEP_ONOFF_TIMER` real minutes (see the counterexample); variant 1 still
checks the guard on the (possibly pre-loaded) timer at every tick. -/
theorem claim1_dwell_spacing :
    (∀ (s : V7.State) (now : ℕ) (evs : List V7.Ev),
        chainOK none (V7.run s now evs).2 = true) ∧
    (∀ (hour minute : ℕ) (s : V1.State),
        ((V1.tick hour minute s).2.any fun pc =>
          decide (pc.1 = Src.auto) && pc.2.resetsDwell) = true →
        25 ≤ s.keepOnOffMs / 60000) := by
  constructor
  · intro s now evs
    exact V7.run_chain evs s now none (by intro tl h; cases h)
  · intro hour minute s hany
    by_contra h
    rw [V1.tick_auto_guard hour minute s h] at hany
    cases hany

/-- Variant-1 state used to witness the guard half of the amended C1. -/
def claim1GuardState : V1.State :=
  { V1.initState with rhtDisabled := false, mustOffMs := 0, keepOnOffMs := 1500000,
                      currentTemp := 26, currentRh := 70, currentHI := 26 }

/-- Witness for the amended C1 at a concrete trace and a concrete tick that
does issue a hysteresis command. -/
theorem claim1_dwell_spacing_witness :
    chainOK none (V7.run V7.initState 0
      [V7.Ev.reading 60 26 27 1, V7.Ev.tick 12 0]).2 = true ∧
    25 ≤ claim1GuardState.keepOnOffMs / 60000 :=
  ⟨claim1_dwell_spacing.1 V7.initState 0 [V7.Ev.reading 60 26 27 1, V7.Ev.tick 12 0],
   claim1_dwell_spacing.2 12 0 claim1GuardState (by decide)⟩

namespace V7

theorem ac_setting_down_val (s : State) :
    (ac_setting_down s).1.currentACsetting =
      if 24 < s.currentACsetting then s.currentACsetting - 1 else s.currentACsetting := by
  unfold ac_setting_down
  split_ifs with h
  · rcases set_temp_spec (s.currentACsetting - 1)
      { s with currentACsetting := s.currentACsetting - 1 } with hh | hh
    · simp [hh]
    · simp [hh]
  · rfl

theorem ac_setting_up_val (s : State) :
    (ac_setting_up s).1.currentACsetting =
      if s.currentACsetting < 26 then s.currentACsetting + 1 else s.currentACsetting := by
  unfold ac_setting_up
  split_ifs with h
  · rcases set_temp_spec (s.currentACsetting + 1)
      { s with currentACsetting := s.currentACsetting + 1 } with hh | hh
    · simp [hh]
    · simp [hh]
  · rfl

theorem myHandler_acSetting (data : List Char) (s : State)
    (h22 : 22 ≤ s.currentACsetting) (h26 : s.currentACsetting ≤ 26) :
    22 ≤ (myHandler data s).1.currentACsetting ∧
      (myHandler data s).1.currentACsetting ≤ 26 := by
  cases hc : classify data
  case kAuto => simp [myHandler, hc]
  case kOff => simp [myHandler, hc, daikin_off]
  case kAutoOffSet =>
    simp only [myHandler, hc]
    split_ifs <;> exact ⟨h22, h26⟩
  case kPause =>
    simp only [myHandler, hc]
    exact ⟨h22, h26⟩
  case kCoolOn =>
    simp only [myHandler, hc, daikin_ac_on]
    split_ifs with h1 h2
    · obtain ⟨ha, hb⟩ := h2
      refine ⟨?_, ?_⟩
      · show 22 ≤ (coolOnArg data).toNat
        omega
      · show (coolOnArg data).toNat ≤ 26
        omega
    · exact ⟨h22, h26⟩
    · exact ⟨h22, h26⟩
  case kMoreFan =>
    simp only [myHandler, hc, fan_speed_up, ac_fan_setting, daikin_ac_on]
    exact ⟨h22, h26⟩
  case kLessFan =>
    simp only [myHandler, hc, fan_speed_down, ac_fan_setting, daikin_ac_on]
    exact ⟨h22, h26⟩
  case kMaxFan =>
    simp only [myHandler, hc, ac_fan_setting, daikin_ac_on]
    exact ⟨h22, h26⟩
  case kQuietFan =>
    simp only [myHandler, hc, ac_fan_setting, daikin_ac_on]
    exact ⟨h22, h26⟩
  case kTooHot =>
    simp only [myHandler, hc]
    rw [ac_setting_down_val]
    split_ifs <;> omega
  case kTooCold =>
    simp only [myHandler, hc]
    rw [ac_setting_up_val]
    split_ifs <;> omega
  case kDryingOn => simp [myHandler, hc, daikin_dehumidifier_on]
  case kNone =>
    simp only [myHandler, hc]
    exact ⟨h22, h26⟩

theorem ctrlStep_acSetting (lm : ℕ) (s : State) :
    (ctrlStep lm s).1.currentACsetting = s.currentACsetting := by
  rcases ctrlStep_spec lm s with ⟨_, _, _, _, h⟩ | ⟨_, _, _, _, _, h, _⟩ <;> exact h

theorem autoOffStep_acSetting (hour : ℕ) (s : State) :
    (autoOffStep hour s).1.currentACsetting = s.currentACsetting := by
  rcases autoOffStep_spec hour s with ⟨_, hq⟩ | ⟨_, hq⟩ <;> rw [hq]

theorem reenableStep_acSetting (s : State) :
    (reenableStep s).currentACsetting = s.currentACsetting := by
  rcases reenableStep_spec s with h | h <;> rw [h]

theorem pauseStep_acSetting (hour minute : ℕ) (s : State) :
    (pauseStep hour minute s).1.currentACsetting = s.currentACsetting := by
  rcases pauseStep_spec hour minute s with hp | hp | hp <;> rw [hp]

theorem tick_acSetting (hour minute : ℕ) (s : State) :
    (tick hour minute s).1.currentACsetting = s.currentACsetting := by
  simp only [tick]
  rw [ctrlStep_acSetting, autoOffStep_acSetting, reenableStep_acSetting, pauseStep_acSetting]

/-- An operation on the controller: a trace event or a remote command. -/
inductive Op where
  | ev (e : Ev)
  | cmd (data : List Char)
deriving DecidableEq, Repr

/-- Apply a sequence of operations (ticks, delays, readings, remote commands). -/
def opRun (s : State) : List Op → State
  | [] => s
  | Op.ev (Ev.delay d) :: ops => opRun (advance d s) ops
  | Op.ev (Ev.reading r t hi c) :: ops => opRun (applyReading r t hi c s) ops
  | Op.ev (Ev.tick h m) :: ops => opRun (tick h m s).1 ops
  | Op.cmd data :: ops => opRun (myHandler data s).1 ops

theorem opRun_acSetting_inv (ops : List Op) : ∀ s : State,
    22 ≤ s.currentACsetting → s.currentACsetting ≤ 26 →
    22 ≤ (opRun s ops).currentACsetting ∧ (opRun s ops).currentACsetting ≤ 26 := by
  induction ops with
  | nil => exact fun s h1 h2 => ⟨h1, h2⟩
  | cons op ops ih =>
    intro s h1 h2
    match op with
    | Op.ev (Ev.delay d) => exact ih (advance d s) h1 h2
    | Op.ev (Ev.reading r t hi c) => exact ih (applyReading r t hi c s) h1 h2
    | Op.ev (Ev.tick h m) =>
      refine ih (tick h m s).1 ?_ ?_ <;> rw [tick_acSetting] <;> assumption
    | Op.cmd data =>
      obtain ⟨g1, g2⟩ := myHandler_acSetting data s h1 h2
      exact ih (myHandler data s).1 g1 g2

end V7

/-- C2 (counterexample): the accepted remote command `cool-on-22` stores a
set-point of 22, strictly below `AC_SETTING_LOW = 24`, so `currentACsetting`
does leave the configured `[AC_SETTING_LOW, AC_SETTING_HIGH]` bound. -/
theorem claim2_counterexample :
    (V7.myHandler (strOf "cool-on-22") V7.initState).1.currentACsetting = 22 ∧
    (V7.myHandler (strOf "cool-on-22") V7.initState).1.currentACsetting < 24 := by
  decide

/-- C2 (amended): under every sequence of operations from the initial state,
`currentACsetting` stays in `[22, 26]` — the manual `cool-on-N` bound, which is
wider than `[AC_SETTING_LOW, AC_SETTING_HIGH] = [24, 26]` because an accepted
`cool-on-22`/`cool-on-23` stores a value below `AC_SETTING_LOW`; the nudge
operations still saturate (no wrap): `too-hot` never moves the set-point below
24 and `too-cold` never moves it above 26. -/
theorem claim2_setpoint_range :
    (∀ ops : List V7.Op,
        22 ≤ (V7.opRun V7.initState ops).currentACsetting ∧
        (V7.opRun V7.initState ops).currentACsetting ≤ 26) ∧
    (∀ s : V7.State, s.currentACsetting ≤ 24 →
        (V7.ac_setting_down s).1.currentACsetting = s.currentACsetting) ∧
    (∀ s : V7.State, 26 ≤ s.currentACsetting →
        (V7.ac_setting_up s).1.currentACsetting = s.currentACsetting) := by
  refine ⟨fun ops => V7.opRun_acSetting_inv ops V7.initState (by decide) (by decide),
          fun s h => ?_, fun s h => ?_⟩
  · rw [V7.ac_setting_down_val, if_neg (by omega)]
  · rw [V7.ac_setting_up_val, if_neg (by omega)]

/-- Witness for the amended C2: a `cool-on-22` followed by a `too-hot` nudge
stays at 22 (saturation below the nudge floor), and the invariant holds on that
concrete run. -/
theorem claim2_setpoint_range_witness :
    (22 ≤ (V7.opRun V7.initState
        [V7.Op.cmd (strOf "cool-on-22"), V7.Op.cmd (strOf "too-hot")]).currentACsetting ∧
     (V7.opRun V7.initState
        [V7.Op.cmd (strOf "cool-on-22"), V7.Op.cmd (strOf "too-hot")]).currentACsetting ≤ 26) ∧
    (V7.ac_setting_down (V7.myHandler (strOf "cool-on-22") V7.initState).1).1.currentACsetting
      = (V7.myHandler (strOf "cool-on-22") V7.initState).1.currentACsetting :=
  ⟨claim2_setpoint_range.1 [V7.Op.cmd (strOf "cool-on-22"), V7.Op.cmd (strOf "too-hot")],
   claim2_setpoint_range.2.1 (V7.myHandler (strOf "cool-on-22") V7.initState).1 (by decide)⟩

namespace V7

theorem pauseStep_no_auto (hour minute : ℕ) (s : State) :
    ((pauseStep hour minute s).2.any fun pc => decide (pc.1 = Src.auto)) = false := by
  rcases pauseStep_spec hour minute s with hp | hp | hp <;> rw [hp] <;> simp

theorem autoOffStep_no_auto (hour : ℕ) (s : State) :
    ((autoOffStep hour s).2.any fun pc => decide (pc.1 = Src.auto)) = false := by
  rcases autoOffStep_spec hour s with ⟨_, hq⟩ | ⟨_, hq⟩ <;> rw [hq] <;> simp

/-- If a tick ends with RHT control disabled, its hysteresis block emitted
nothing (the decision block runs only when control is enabled at its point, and
nothing after it flips the flag). -/
theorem tick_auto_of_rht_off (hour minute : ℕ) (s : State)
    (h : (tick hour minute s).1.rht_control_on = false) :
    ((tick hour minute s).2.any fun pc => decide (pc.1 = Src.auto)) = false := by
  simp only [tick] at h ⊢
  rcases ctrlStep_spec (s.remainModeMs / 60000)
      (autoOffStep hour (reenableStep (pauseStep hour minute s).1)).1 with
    ⟨hc2, _, _, _, _⟩ | ⟨_, hrhtIn, _, hrhtPres, _, _, _⟩
  · rw [hc2]
    simp [List.any_append, pauseStep_no_auto, autoOffStep_no_auto]
  · rw [hrhtPres, hrhtIn] at h
    cases h

end V7

/-- C5: an accepted `cool-on-N` command (N in 22..26) switches the unit to
Cooling at set-point N, resets the dwell timer and disables auto-control; and
any decision tick that ends with auto-control still disabled (that is, no
other command or schedule trigger re-enabled it during the tick) emits no
hysteresis command. -/
theorem claim5_manual_coolon :
    (∀ (data : List Char) (s : V7.State),
        V7.classify data = V7.HKind.kCoolOn → data.length = 10 →
        22 ≤ V7.coolOnArg data → V7.coolOnArg data ≤ 26 →
        (V7.myHandler data s).1.rht_control_on = false ∧
        (V7.myHandler data s).1.currentMode = Mode.cooling ∧
        (V7.myHandler data s).1.remainModeMs = 0 ∧
        (V7.myHandler data s).1.currentACsetting = (V7.coolOnArg data).toNat ∧
        Cmd.acOn ∈ (V7.myHandler data s).2) ∧
    (∀ (hour minute : ℕ) (s : V7.State),
        (V7.tick hour minute s).1.rht_control_on = false →
        ((V7.tick hour minute s).2.any fun pc => decide (pc.1 = Src.auto)) = false) := by
  constructor
  · intro data s hc hlen hlo hhi
    simp only [V7.myHandler, hc, V7.daikin_ac_on]
    rw [if_pos hlen, if_pos ⟨hlo, hhi⟩]
    simp
  · exact V7.tick_auto_of_rht_off

/-- Witness for C5: `cool-on-24` at the initial state, and the state it leaves
behind runs a decision tick with no hysteresis command. -/
theorem claim5_manual_coolon_witness :
    ((V7.myHandler (strOf "cool-on-24") V7.initState).1.rht_control_on = false ∧
     (V7.myHandler (strOf "cool-on-24") V7.initState).1.currentMode = Mode.cooling ∧
     (V7.myHandler (strOf "cool-on-24") V7.initState).1.remainModeMs = 0 ∧
     (V7.myHandler (strOf "cool-on-24") V7.initState).1.currentACsetting =
       (V7.coolOnArg (strOf "cool-on-24")).toNat ∧
     Cmd.acOn ∈ (V7.myHandler (strOf "cool-on-24") V7.initState).2) ∧
    ((V7.tick 12 0 (V7.myHandler (strOf "cool-on-24") V7.initState).1).2.any fun pc =>
        decide (pc.1 = Src.auto)) = false :=
  ⟨claim5_manual_coolon.1 (strOf "cool-on-24") V7.initState (by decide) (by decide)
      (by decide) (by decide),
   claim5_manual_coolon.2 12 0 (V7.myHandler (strOf "cool-on-24") V7.initState).1
      (by decide)⟩

/-- C9: every accepted fan-speed command (`more-fan`, `less-fan`, `max-fan`,
`quiet-fan`) ends by issuing a Cooling-on command: afterwards the mode is
Cooling, the dwell timer is reset to zero, and the auto-control flag is
unchanged, whatever the mode was before. -/
theorem claim9_fan_commands (data : List Char) (s : V7.State)
    (h : V7.classify data = V7.HKind.kMoreFan ∨ V7.classify data = V7.HKind.kLessFan ∨
         V7.classify data = V7.HKind.kMaxFan ∨ V7.classify data = V7.HKind.kQuietFan) :
    (V7.myHandler data s).1.currentMode = Mode.cooling ∧
    (V7.myHandler data s).1.remainModeMs = 0 ∧
    (V7.myHandler data s).1.rht_control_on = s.rht_control_on ∧
    Cmd.acOn ∈ (V7.myHandler data s).2 := by
  rcases h with hc | hc | hc | hc <;>
    simp [V7.myHandler, hc, V7.fan_speed_up, V7.fan_speed_down, V7.ac_fan_setting,
      V7.daikin_ac_on]

/-- Witness for C9: `more-fan` received while the unit is dehumidifying. -/
theorem claim9_fan_commands_witness :
    (V7.myHandler (strOf "more-fan")
        { V7.initState with currentMode := Mode.dehumidifier }).1.currentMode
      = Mode.cooling ∧
    (V7.myHandler (strOf "more-fan")
        { V7.initState with currentMode := Mode.dehumidifier }).1.remainModeMs = 0 ∧
    (V7.myHandler (strOf "more-fan")
        { V7.initState with currentMode := Mode.dehumidifier }).1.rht_control_on
      = ({ V7.initState with currentMode := Mode.dehumidifier } : V7.State).rht_control_on ∧
    Cmd.acOn ∈ (V7.myHandler (strOf "more-fan")
        { V7.initState with currentMode := Mode.dehumidifier }).2 :=
  claim9_fan_commands (strOf "more-fan") { V7.initState with currentMode := Mode.dehumidifier }
    (Or.inl (by decide))

namespace V7

/-- Count of auto-off-timer firings in a stamped command list. -/
def schedOffCount (l : List (ℕ × Src × Cmd)) : ℕ :=
  l.countP fun e => decide (e.2.1 = Src.schedOff)

theorem pauseStep_no_schedOff (hour minute : ℕ) (s : State) :
    ((pauseStep hour minute s).2.countP fun e => decide (e.1 = Src.schedOff)) = 0 := by
  rcases pauseStep_spec hour minute s with hp | hp | hp <;> rw [hp] <;> simp

theorem ctrl_no_schedOff (l : List Cmd) :
    ((l.map fun c => (Src.auto, c)).countP fun e => decide (e.1 = Src.schedOff)) = 0 := by
  induction l with
  | nil => rfl
  | cons c t ih => simp [List.countP_cons, ih]

theorem pauseStep_slot (hour minute : ℕ) (s : State) :
    (pauseStep hour minute s).1.autoOffTimerHour = s.autoOffTimerHour := by
  rcases pauseStep_spec hour minute s with hp | hp | hp <;> rw [hp]

theorem reenableStep_slot (s : State) :
    (reenableStep s).autoOffTimerHour = s.autoOffTimerHour := by
  rcases reenableStep_spec s with h | h <;> rw [h]

theorem ctrlStep_slot (lm : ℕ) (s : State) :
    (ctrlStep lm s).1.autoOffTimerHour = s.autoOffTimerHour := by
  rcases ctrlStep_spec lm s with ⟨_, _, _, h, _⟩ | ⟨_, _, _, _, h, _, _⟩ <;> exact h

/-- A tick whose hour matches the armed slot: the auto-off block fires exactly
once — RHT control is disabled, an Off command tagged `schedOff` goes out, and
the slot resets to the disabled sentinel 25. -/
theorem tick_schedOff_fire (hour minute : ℕ) (s : State)
    (h : (hour : ℤ) = s.autoOffTimerHour) :
    ((tick hour minute s).2.countP fun e => decide (e.1 = Src.schedOff)) = 1 ∧
    (Src.schedOff, Cmd.acOff) ∈ (tick hour minute s).2 ∧
    (tick hour minute s).1.autoOffTimerHour = 25 ∧
    (tick hour minute s).1.rht_control_on = false := by
  simp only [tick]
  have hslot : (hour : ℤ) = (reenableStep (pauseStep hour minute s).1).autoOffTimerHour := by
    rw [reenableStep_slot, pauseStep_slot]
    exact h
  rcases autoOffStep_spec hour (reenableStep (pauseStep hour minute s).1) with
    ⟨_, hq⟩ | ⟨hne, _⟩
  · rw [hq, ctrlStep_not_on _ _ (by rfl)]
    refine ⟨?_, ?_, ?_, ?_⟩
    · simp [List.countP_append, List.countP_cons, pauseStep_no_schedOff]
    · simp
    · rfl
    · rfl
  · exact absurd hslot hne

/-- A tick with the slot disarmed (25) and a real clock hour never fires the
auto-off block and leaves the slot disarmed. -/
theorem tick_schedOff_idle (hour minute : ℕ) (s : State)
    (h25 : s.autoOffTimerHour = 25) (hh : hour ≤ 23) :
    ((tick hour minute s).2.countP fun e => decide (e.1 = Src.schedOff)) = 0 ∧
    (tick hour minute s).1.autoOffTimerHour = 25 := by
  simp only [tick]
  rcases autoOffStep_spec hour (reenableStep (pauseStep hour minute s).1) with
    ⟨heq, _⟩ | ⟨_, hq⟩
  · rw [reenableStep_slot, pauseStep_slot, h25] at heq
    omega
  · rw [hq]
    constructor
    · simp [List.countP_append, pauseStep_no_schedOff, ctrl_no_schedOff]
    · rw [ctrlStep_slot, reenableStep_slot, pauseStep_slot, h25]

/-- A tick that does not fire the auto-off block emits no `schedOff` command
and keeps the slot unchanged. -/
theorem tick_schedOff_notfire (hour minute : ℕ) (s : State)
    (h : (hour : ℤ) ≠ s.autoOffTimerHour) :
    ((tick hour minute s).2.countP fun e => decide (e.1 = Src.schedOff)) = 0 ∧
    (tick hour minute s).1.autoOffTimerHour = s.autoOffTimerHour := by
  simp only [tick]
  rcases autoOffStep_spec hour (reenableStep (pauseStep hour minute s).1) with
    ⟨heq, _⟩ | ⟨_, hq⟩
  · rw [reenableStep_slot, pauseStep_slot] at heq
    exact absurd heq h
  · rw [hq]
    constructor
    · simp [List.countP_append, pauseStep_no_schedOff, ctrl_no_schedOff]
    · rw [ctrlStep_slot, reenableStep_slot, pauseStep_slot]

/-- Every tick of the event list happens at a real clock hour (0–23). -/
def hoursOK (evs : List Ev) : Bool :=
  evs.all fun e =>
    match e with
    | Ev.tick h _ => decide (h ≤ 23)
    | _ => true

theorem run_schedOff_zero (evs : List Ev) : ∀ (s : State) (now : ℕ),
    s.autoOffTimerHour = 25 → hoursOK evs = true →
    schedOffCount (run s now evs).2 = 0 := by
  induction evs with
  | nil => intro s now _ _; rfl
  | cons e evs ih =>
    intro s now h25 hok
    rw [hoursOK, List.all_cons, Bool.and_eq_true] at hok
    cases e with
    | delay d => exact ih (advance d s) (now + d) h25 hok.2
    | reading r t hi c => exact ih (applyReading r t hi c s) now h25 hok.2
    | tick h m =>
      have hh : h ≤ 23 := by simp at hok; exact hok.1
      obtain ⟨hz, hs⟩ := tick_schedOff_idle h m s h25 hh
      simp only [run, schedOffCount, List.countP_append]
      rw [List.countP_map]
      have : (tick h m s).2.countP
          ((fun e : ℕ × Src × Cmd => decide (e.2.1 = Src.schedOff)) ∘
            fun pc => (now, pc.1, pc.2)) = 0 := hz
      rw [this]
      simpa [schedOffCount] using ih (tick h m s).1 now hs hok.2

theorem run_schedOff_le_one (evs : List Ev) : ∀ (s : State) (now : ℕ),
    hoursOK evs = true → schedOffCount (run s now evs).2 ≤ 1 := by
  induction evs with
  | nil => intro s now _; simp [run, schedOffCount]
  | cons e evs ih =>
    intro s now hok
    rw [hoursOK, List.all_cons, Bool.and_eq_true] at hok
    cases e with
    | delay d => exact ih (advance d s) (now + d) hok.2
    | reading r t hi c => exact ih (applyReading r t hi c s) now hok.2
    | tick h m =>
      simp only [run, schedOffCount, List.countP_append]
      rw [List.countP_map]
      by_cases hf : (h : ℤ) = s.autoOffTimerHour
      · obtain ⟨h1, _, hs, _⟩ := tick_schedOff_fire h m s hf
        have hz : schedOffCount (run (tick h m s).1 now evs).2 = 0 :=
          run_schedOff_zero evs (tick h m s).1 now hs hok.2
        rw [schedOffCount] at hz
        have : (tick h m s).2.countP
            ((fun e : ℕ × Src × Cmd => decide (e.2.1 = Src.schedOff)) ∘
              fun pc => (now, pc.1, pc.2)) = 1 := h1
        omega
      · obtain ⟨h0, _⟩ := tick_schedOff_notfire h m s hf
        have : (tick h m s).2.countP
            ((fun e : ℕ × Src × Cmd => decide (e.2.1 = Src.schedOff)) ∘
              fun pc => (now, pc.1, pc.2)) = 0 := h0
        rw [this]
        simpa using ih (tick h m s).1 now hok.2

end V7

/-! ### Variant 3 (`src/Particle_O2_Daikin_3/Daikin_Control_Particle.ino`) -/

namespace V3

/-- `DEH_TEMP` = 26.50 °C. -/
def DEH_TEMP : ℚ := mkRat 53 2

/-- `COLD_HIDX` = 24.20 (heat index). -/
def COLD_HIDX : ℚ := mkRat 121 5

/-- `DEH_TEMP_H` = 27.50 °C (during H hours). -/
def DEH_TEMP_H : ℚ := mkRat 55 2

/-- `COLD_HIDX_H` = 24.45 (during H hours). -/
def COLD_HIDX_H : ℚ := mkRat 489 20

/-- Control-relevant globals of variant 3. -/
structure State where
  currentMode : Mode
  remainModeMs : ℕ        -- elapsed_remain_mode_timer (ms)
  systemUpMs : ℕ          -- elapsed_system_up_timer (ms)
  currentTemp : ℚ
  currentRh : ℚ
  currentHI : ℚ
  currentReadCount : ℕ
  coldTempHi : ℚ
  coldTempHiH : ℚ
  daikin_boost : Bool
  rht_control_on : Bool
  autoOffTimerHour : ℤ
  autoOnTimerHour : ℤ
  current_H_hours : Bool
deriving DecidableEq, Repr

/-- State after `setup()`. -/
def initState : State where
  currentMode := .off
  remainModeMs := 0
  systemUpMs := 0
  currentTemp := 0
  currentRh := 0
  currentHI := 0
  currentReadCount := 0
  coldTempHi := COLD_HIDX
  coldTempHiH := COLD_HIDX_H
  daikin_boost := false
  rht_control_on := false
  autoOffTimerHour := 25
  autoOnTimerHour := 25
  current_H_hours := false

/-- `daikin_ac_on()`. -/
def daikin_ac_on (s : State) : State × List Cmd :=
  ({ s with currentMode := .cooling, remainModeMs := 0 }, [Cmd.acOn])

/-- `daikin_dehumidifier_on()`. -/
def daikin_dehumidifier_on (s : State) : State × List Cmd :=
  ({ s with currentMode := .dehumidifier, remainModeMs := 0 }, [Cmd.dehOn])

/-- `daikin_off()`. -/
def daikin_off (s : State) : State × List Cmd :=
  ({ s with currentMode := .off, remainModeMs := 0 }, [Cmd.acOff])

/-- H-hours tracking (`loop`, lines 307–326): on entering the window send
`TEMP_AC_CMD_HI` (`att26`), on leaving send `TEMP_AC_CMD_LO` (`att25`). -/
def hHoursStep (hTempTime : Bool) (s : State) : State × List (Src × Cmd) :=
  let cmds : List (Src × Cmd) :=
    if s.rht_control_on = true then
      if s.current_H_hours = false ∧ hTempTime = true then [(Src.hHours, Cmd.setTemp 26)]
      else if s.current_H_hours = true ∧ hTempTime = false then [(Src.hHours, Cmd.setTemp 25)]
      else []
    else []
  ({ s with current_H_hours := hTempTime }, cmds)

/-- Auto-on-timer block (`loop`, lines 332–356): fires regardless of the
current control status; dwell timer is set to `REMAIN_MODE_TIME` minutes so
the next decision can run at once. -/
def autoOnStep (hour : ℕ) (s : State) : State × List (Src × Cmd) :=
  if (hour : ℤ) = s.autoOnTimerHour then
    ({ s with remainModeMs := 5 * 60000, systemUpMs := 0, currentMode := Mode.off,
              daikin_boost := false, rht_control_on := true, autoOnTimerHour := 25 },
     [(Src.schedOn, Cmd.extFanOff)])
  else (s, [])

/-- Auto-off-timer block (`loop`, lines 362–384): the off actions are gated on
`rht_control_on`, but the slot clears regardless. -/
def autoOffStep (hour : ℕ) (s : State) : State × List (Src × Cmd) :=
  if (hour : ℤ) = s.autoOffTimerHour then
    if s.rht_control_on = true then
      let d := daikin_off { s with rht_control_on := false, daikin_boost := false }
      ({ d.1 with autoOffTimerHour := 25 },
       d.2.map (fun c => (Src.schedOff, c)) ++ [(Src.schedOff, Cmd.extFanOn)])
    else ({ s with autoOffTimerHour := 25 }, [])
  else (s, [])

/-- Environmental Control block (`loop`, lines 566–604): inside the
`COLD ≤ heat index` and `temp ≤ DEH_TEMP` window use the dehumidifier,
otherwise cooling. -/
def ctrlStep (lastMin useRemain : ℕ) (hTempTime : Bool) (s : State) : State × List Cmd :=
  let coldTemp := if hTempTime then s.coldTempHiH else s.coldTempHi
  let dehTemp := if hTempTime then DEH_TEMP_H else DEH_TEMP
  if s.rht_control_on = true ∧ s.daikin_boost = false then
    if useRemain ≤ lastMin then
      if coldTemp ≤ s.currentHI ∧ s.currentTemp ≤ dehTemp then
        if s.currentMode ≠ Mode.dehumidifier then daikin_dehumidifier_on s else (s, [])
      else
        if s.currentMode ≠ Mode.cooling then daikin_ac_on s else (s, [])
    else (s, [])
  else (s, [])

/-- One `loop()` iteration of variant 3: H-hours tracking, auto-on check
(before auto-off, "in case OFF/ON at the same time"), auto-off check, then the
hysteresis decision. -/
def tick (hour : ℕ) (s : State) : State × List (Src × Cmd) :=
  let lastMin := s.remainModeMs / 60000
  let useRemain : ℕ := if s.currentMode = Mode.dehumidifier then 15 else 5
  let hTempTime : Bool := decide (3 ≤ hour ∧ hour < 6)
  let w := hHoursStep hTempTime s
  let a := autoOnStep hour w.1
  let b := autoOffStep hour a.1
  let r := ctrlStep lastMin useRemain hTempTime b.1
  (r.1, w.2 ++ a.2 ++ b.2 ++ r.2.map (fun c => (Src.auto, c)))

end V3

/-! ### Variant 5 (`src/Particle_O2_Daikin_5/Daikin_Control_Particle.ino`) -/

namespace V5

/-- `HI_HIGH` = 26.90. -/
def HI_HIGH : ℚ := mkRat 269 10

/-- `HI_LOW` = 26.00. -/
def HI_LOW : ℚ := 26

/-- `HI_HIGH_H` = 27.50. -/
def HI_HIGH_H : ℚ := mkRat 55 2

/-- `HI_LOW_H` = 26.50. -/
def HI_LOW_H : ℚ := mkRat 53 2

/-- Control-relevant globals of variant 5. -/
structure State where
  currentMode : Mode
  remainModeMs : ℕ
  systemUpMs : ℕ
  currentTemp : ℚ
  currentRh : ℚ
  currentHI : ℚ
  currentReadCount : ℕ
  daikin_boost : Bool
  rht_control_on : Bool
  autoOffTimerHour : ℤ
  autoOnTimerHour : ℤ
  current_H_hours : Bool
  currentACsetting : ℕ
  last10minTemps : List ℚ
deriving DecidableEq, Repr

/-- State after `setup()`. -/
def initState : State where
  currentMode := .off
  remainModeMs := 0
  systemUpMs := 0
  currentTemp := 0
  currentRh := 0
  currentHI := 0
  currentReadCount := 0
  daikin_boost := false
  rht_control_on := false
  autoOffTimerHour := 25
  autoOnTimerHour := 25
  current_H_hours := false
  currentACsetting := 26     -- AC_START_TEMP
  last10minTemps := List.replicate 10 0

/-- `daikin_ac_on()`. -/
def daikin_ac_on (s : State) : State × List Cmd :=
  ({ s with currentMode := .cooling, remainModeMs := 0 }, [Cmd.acOn])

/-- `daikin_dehumidifier_on()`. -/
def daikin_dehumidifier_on (s : State) : State × List Cmd :=
  ({ s with currentMode := .dehumidifier, remainModeMs := 0 }, [Cmd.dehOn])

/-- `daikin_off()`. -/
def daikin_off (s : State) : State × List Cmd :=
  ({ s with currentMode := .off, remainModeMs := 0 }, [Cmd.acOff])

/-- `daikin_ac_on_set_temp(setTemp)`. -/
def daikin_ac_on_set_temp (n : ℕ) (s : State) : State × List Cmd :=
  if 22 ≤ n ∧ n ≤ 26 then
    let a := daikin_ac_on s
    (a.1, Cmd.setTemp n :: Cmd.setFan 6 :: a.2)
  else (s, [])

/-- `ac_setting_down()`. -/
def ac_setting_down (s : State) : State × List Cmd :=
  if 24 < s.currentACsetting then
    let s' := { s with currentACsetting := s.currentACsetting - 1 }
    daikin_ac_on_set_temp s'.currentACsetting s'
  else (s, [])

/-- `ac_setting_up()`. -/
def ac_setting_up (s : State) : State × List Cmd :=
  if s.currentACsetting < 26 then
    let s' := { s with currentACsetting := s.currentACsetting + 1 }
    daikin_ac_on_set_temp s'.currentACsetting s'
  else (s, [])

/-- H-hours tracking (log only in variant 5). -/
def hHoursStep (hTempTime : Bool) (s : State) : State :=
  { s with current_H_hours := hTempTime }

/-- Auto-on-timer block (`loop`, lines 454–482): besides enabling control it
restores the default set-point and issues an AC-on command through
`daikin_ac_on_set_temp`, which leaves the unit cooling with the dwell timer at
zero. -/
def autoOnStep (hour : ℕ) (s : State) : State × List (Src × Cmd) :=
  if (hour : ℤ) = s.autoOnTimerHour then
    let s1 := { s with remainModeMs := 60 * 60000, systemUpMs := 0,
                       currentMode := Mode.off, daikin_boost := false,
                       rht_control_on := true, currentACsetting := 26 }
    let d := daikin_ac_on_set_temp 26 s1
    ({ d.1 with autoOnTimerHour := 25 },
     (Src.schedOn, Cmd.extFanOff) :: d.2.map (fun c => (Src.schedOn, c)))
  else (s, [])

/-- Auto-off-timer block (`loop`, lines 488–507): unconditional in variant 5. -/
def autoOffStep (hour : ℕ) (s : State) : State × List (Src × Cmd) :=
  if (hour : ℤ) = s.autoOffTimerHour then
    let d := daikin_off { s with rht_control_on := false, daikin_boost := false }
    ({ d.1 with autoOffTimerHour := 25 },
     d.2.map (fun c => (Src.schedOff, c)) ++ [(Src.schedOff, Cmd.extFanOn)])
  else (s, [])

/-- Environmental Control block (`loop`, lines 696–735): heat-index hysteresis
on the set-point, gated on a trend check against the oldest tracked
temperature. -/
def ctrlStep (lastMin : ℕ) (hTempTime : Bool) (s : State) : State × List Cmd :=
  let hiHigh := if hTempTime then HI_HIGH_H else HI_HIGH
  let hiLow := if hTempTime then HI_LOW_H else HI_LOW
  if s.rht_control_on = true ∧ s.daikin_boost = false ∧
      0 < s.currentHI ∧ 0 < s.currentTemp then
    if 10 ≤ lastMin then
      if hiHigh < s.currentHI then
        if s.last10minTemps.headD 0 ≤ s.currentTemp then ac_setting_down s else (s, [])
      else if s.currentHI < hiLow then
        if s.currentTemp ≤ s.last10minTemps.headD 0 then ac_setting_up s else (s, [])
      else (s, [])
    else (s, [])
  else (s, [])

/-- One `loop()` iteration of variant 5. -/
def tick (hour : ℕ) (s : State) : State × List (Src × Cmd) :=
  let lastMin := s.remainModeMs / 60000
  let hTempTime : Bool := decide (3 ≤ hour ∧ hour < 6)
  let w := hHoursStep hTempTime s
  let a := autoOnStep hour w
  let b := autoOffStep hour a.1
  let r := ctrlStep lastMin hTempTime b.1
  (r.1, a.2 ++ b.2 ++ r.2.map (fun c => (Src.auto, c)))

end V5

namespace V3

theorem hHoursStep_fst (ht : Bool) (s : State) :
    (hHoursStep ht s).1 = { s with current_H_hours := ht } := rfl

theorem autoOnStep_fire (hour : ℕ) (s : State) (h : (hour : ℤ) = s.autoOnTimerHour) :
    autoOnStep hour s =
      ({ s with remainModeMs := 5 * 60000, systemUpMs := 0, currentMode := Mode.off,
                daikin_boost := false, rht_control_on := true, autoOnTimerHour := 25 },
       [(Src.schedOn, Cmd.extFanOff)]) := by
  unfold autoOnStep
  rw [if_pos h]

theorem autoOnStep_miss (hour : ℕ) (s : State) (h : (hour : ℤ) ≠ s.autoOnTimerHour) :
    autoOnStep hour s = (s, []) := by
  unfold autoOnStep
  rw [if_neg h]

theorem autoOffStep_miss (hour : ℕ) (s : State) (h : (hour : ℤ) ≠ s.autoOffTimerHour) :
    autoOffStep hour s = (s, []) := by
  unfold autoOffStep
  rw [if_neg h]

theorem autoOffStep_fire_on (hour : ℕ) (s : State)
    (heq : (hour : ℤ) = s.autoOffTimerHour) (hrht : s.rht_control_on = true) :
    autoOffStep hour s =
      ({ s with rht_control_on := false, daikin_boost := false, currentMode := Mode.off,
                remainModeMs := 0, autoOffTimerHour := 25 },
       [(Src.schedOff, Cmd.acOff), (Src.schedOff, Cmd.extFanOn)]) := by
  unfold autoOffStep daikin_off
  rw [if_pos heq, if_pos hrht]
  simp

theorem ctrlStep_dwell_idle (lastMin useRemain : ℕ) (ht : Bool) (s : State)
    (h : lastMin < useRemain) :
    ctrlStep lastMin useRemain ht s = (s, []) := by
  unfold ctrlStep daikin_ac_on daikin_dehumidifier_on
  split_ifs <;> first | rfl | omega

theorem ctrlStep_off_idle (lastMin useRemain : ℕ) (ht : Bool) (s : State)
    (h : s.rht_control_on = false) :
    ctrlStep lastMin useRemain ht s = (s, []) := by
  unfold ctrlStep
  rw [if_neg]
  simp [h]

theorem hHoursStep_no_auto (ht : Bool) (s : State) :
    ((hHoursStep ht s).2.filter fun pc => decide (pc.1 = Src.auto)) = [] := by
  unfold hHoursStep
  split_ifs <;> simp

theorem ctrlStep_deh_window (lastMin useRemain : ℕ) (ht : Bool) (s : State)
    (hrht : s.rht_control_on = true) (hboost : s.daikin_boost = false)
    (hdw : useRemain ≤ lastMin)
    (hhi : (if ht then s.coldTempHiH else s.coldTempHi) ≤ s.currentHI)
    (htemp : s.currentTemp ≤ (if ht = true then DEH_TEMP_H else DEH_TEMP)) :
    ctrlStep lastMin useRemain ht s =
      (if s.currentMode ≠ Mode.dehumidifier then
        ({ s with currentMode := Mode.dehumidifier, remainModeMs := 0 }, [Cmd.dehOn])
      else (s, [])) := by
  unfold ctrlStep daikin_dehumidifier_on
  rw [if_pos ⟨hrht, hboost⟩, if_pos hdw, if_pos ⟨hhi, htemp⟩]

theorem autoOffStep_fire_off (hour : ℕ) (s : State)
    (heq : (hour : ℤ) = s.autoOffTimerHour) (hrht : s.rht_control_on = false) :
    autoOffStep hour s = ({ s with autoOffTimerHour := 25 }, []) := by
  unfold autoOffStep
  rw [if_pos heq, if_neg (show ¬ s.rht_control_on = true by simp [hrht])]

theorem hHoursStep_no_schedOff (ht : Bool) (s : State) :
    ((hHoursStep ht s).2.countP fun pc => decide (pc.1 = Src.schedOff)) = 0 := by
  simp only [hHoursStep]
  split_ifs <;> simp

theorem hHoursStep_no_acOff (ht : Bool) (s : State) :
    ((hHoursStep ht s).2.countP fun pc => decide (pc.2 = Cmd.acOff)) = 0 := by
  simp only [hHoursStep]
  split_ifs <;> simp

theorem autoTag_no_schedOff (l : List Cmd) :
    ((l.map fun c => (Src.auto, c)).countP fun pc => decide (pc.1 = Src.schedOff)) = 0 := by
  induction l with
  | nil => rfl
  | cons c t ih => simp [List.countP_cons, ih]

/-- A variant-3 decision tick taken with the off slot already cleared (25) at a
real clock hour never emits a `schedOff`-tagged command. -/
theorem tick_schedOff_zero3 (hour : ℕ) (s : State) (h25 : s.autoOffTimerHour = 25)
    (hh : hour ≤ 23) :
    ((tick hour s).2.countP fun pc => decide (pc.1 = Src.schedOff)) = 0 := by
  simp only [tick]
  by_cases hOn : (hour : ℤ) = s.autoOnTimerHour
  · rw [autoOnStep_fire hour]
    · rw [autoOffStep_miss hour]
      · simp [List.countP_append, hHoursStep_no_schedOff, autoTag_no_schedOff]
      · show (hour : ℤ) ≠ s.autoOffTimerHour
        rw [h25]
        intro hEq
        omega
    · exact hOn
  · rw [autoOnStep_miss hour]
    · rw [autoOffStep_miss hour]
      · simp [List.countP_append, hHoursStep_no_schedOff, autoTag_no_schedOff]
      · show (hour : ℤ) ≠ s.autoOffTimerHour
        rw [h25]
        intro hEq
        omega
    · exact hOn

/-- A variant-3 decision tick at the armed off hour (with the on slot not also
matching): the slot always clears, the Off actuation goes out exactly once when
control is on, and nothing at all goes out on the schedule-off path when
control is already off. -/
theorem tick_schedOff_fire3 (hour : ℕ) (s : State)
    (hoff : (hour : ℤ) = s.autoOffTimerHour) (hon : (hour : ℤ) ≠ s.autoOnTimerHour) :
    (tick hour s).1.autoOffTimerHour = 25 ∧
    (s.rht_control_on = true →
      (tick hour s).1.rht_control_on = false ∧
      ((tick hour s).2.countP fun pc => decide (pc.2 = Cmd.acOff)) = 1 ∧
      (Src.schedOff, Cmd.acOff) ∈ (tick hour s).2) ∧
    (s.rht_control_on = false →
      ((tick hour s).2.countP fun pc => decide (pc.2 = Cmd.acOff)) = 0 ∧
      ((tick hour s).2.countP fun pc => decide (pc.1 = Src.schedOff)) = 0) := by
  simp only [tick]
  by_cases hrht : s.rht_control_on = true
  · rw [autoOnStep_miss hour]
    · rw [autoOffStep_fire_on hour]
      · rw [ctrlStep_off_idle]
        · refine ⟨rfl, fun _ => ⟨rfl, ?_, ?_⟩, fun hf => absurd hrht (by simp [hf])⟩
          · simp [List.countP_append, List.countP_cons, hHoursStep_no_acOff]
          · simp
        · rfl
      · exact hoff
      · exact hrht
    · exact hon
  · have hrf : s.rht_control_on = false := by
      revert hrht
      cases s.rht_control_on <;> simp
    rw [autoOnStep_miss hour]
    · rw [autoOffStep_fire_off hour]
      · rw [ctrlStep_off_idle]
        · refine ⟨rfl, fun ht => absurd ht (by simp [hrf]), fun _ => ⟨?_, ?_⟩⟩
          · simp [List.countP_append, hHoursStep_no_acOff]
          · simp [List.countP_append, hHoursStep_no_schedOff]
        · exact hrf
      · exact hoff
      · exact hrf
    · exact hon

end V3

/-- Variant-3 state: off slot armed at hour 22 while auto-control is already
off. -/
def claim4V3State : V3.State := { V3.initState with autoOffTimerHour := 22 }

/-- Variant-3 state: off slot armed at hour 22 with auto-control on. -/
def claim4V3On : V3.State :=
  { V3.initState with autoOffTimerHour := 22, rht_control_on := true }

/-- C4 (counterexample): in variant 3 the off actions are gated on
`rht_control_on` — at the armed hour with control already off, the trigger
fires (the slot clears to 25) yet no Off command is issued at all,
contradicting "an Off command is issued exactly once". -/
theorem claim4_counterexample :
    claim4V3State.rht_control_on = false ∧
    (22 : ℤ) = claim4V3State.autoOffTimerHour ∧
    (V3.tick 22 claim4V3State).1.autoOffTimerHour = 25 ∧
    ((V3.tick 22 claim4V3State).2.countP fun pc => decide (pc.2 = Cmd.acOff)) = 0 ∧
    (V3.tick 22 claim4V3State).2 = [] := by
  decide

/-- C4 (amended): in variant 7 the armed-hour tick disables auto-control,
issues a single `schedOff` Off command and clears the slot to 25, and over any
trace at real clock hours with no re-arming the block fires at most once; in
variant 3 the slot likewise clears at the armed hour and never re-fires, but
the off actions are gated on `rht_control_on`: exactly one Off actuation when
control is on, and none at all when control is already off. -/
theorem claim4_autooff_once :
    (∀ (hour minute : ℕ) (s : V7.State), (hour : ℤ) = s.autoOffTimerHour →
        ((V7.tick hour minute s).2.countP fun e => decide (e.1 = Src.schedOff)) = 1 ∧
        (Src.schedOff, Cmd.acOff) ∈ (V7.tick hour minute s).2 ∧
        (V7.tick hour minute s).1.autoOffTimerHour = 25 ∧
        (V7.tick hour minute s).1.rht_control_on = false) ∧
    (∀ (evs : List V7.Ev) (s : V7.State) (now : ℕ), V7.hoursOK evs = true →
        V7.schedOffCount (V7.run s now evs).2 ≤ 1) ∧
    (∀ (hour : ℕ) (s : V3.State), (hour : ℤ) = s.autoOffTimerHour →
        (hour : ℤ) ≠ s.autoOnTimerHour →
        (V3.tick hour s).1.autoOffTimerHour = 25 ∧
        (s.rht_control_on = true →
          (V3.tick hour s).1.rht_control_on = false ∧
          ((V3.tick hour s).2.countP fun pc => decide (pc.2 = Cmd.acOff)) = 1 ∧
          (Src.schedOff, Cmd.acOff) ∈ (V3.tick hour s).2) ∧
        (s.rht_control_on = false →
          ((V3.tick hour s).2.countP fun pc => decide (pc.2 = Cmd.acOff)) = 0 ∧
          ((V3.tick hour s).2.countP fun pc => decide (pc.1 = Src.schedOff)) = 0)) ∧
    (∀ (hour : ℕ) (t : V3.State), hour ≤ 23 → t.autoOffTimerHour = 25 →
        ((V3.tick hour t).2.countP fun pc => decide (pc.1 = Src.schedOff)) = 0) := by
  exact ⟨V7.tick_schedOff_fire,
    fun evs s now h => V7.run_schedOff_le_one evs s now h,
    fun hour s hoff hon => V3.tick_schedOff_fire3 hour s hoff hon,
    fun hour t hh h25 => V3.tick_schedOff_zero3 hour t h25 hh⟩

/-- Witness for the amended C4: variant 7 fires once at hour 22 and at most
once over a two-tick hour-22 trace; variant 3 with control on fires exactly
one Off actuation at hour 22, and the tick after the slot cleared emits no
further `schedOff` command. -/
theorem claim4_autooff_once_witness :
    (((V7.tick 22 0 { V7.initState with autoOffTimerHour := 22 }).2.countP fun e =>
        decide (e.1 = Src.schedOff)) = 1 ∧
      (Src.schedOff, Cmd.acOff) ∈ (V7.tick 22 0 { V7.initState with autoOffTimerHour := 22 }).2 ∧
      (V7.tick 22 0 { V7.initState with autoOffTimerHour := 22 }).1.autoOffTimerHour = 25 ∧
      (V7.tick 22 0 { V7.initState with autoOffTimerHour := 22 }).1.rht_control_on = false) ∧
    V7.schedOffCount (V7.run { V7.initState with autoOffTimerHour := 22 } 0
        [V7.Ev.tick 22 0, V7.Ev.tick 22 30]).2 ≤ 1 ∧
    (V3.tick 22 claim4V3On).1.autoOffTimerHour = 25 ∧
    ((V3.tick 22 claim4V3On).2.countP fun pc => decide (pc.2 = Cmd.acOff)) = 1 ∧
    ((V3.tick 22 (V3.tick 22 claim4V3On).1).2.countP fun pc =>
        decide (pc.1 = Src.schedOff)) = 0 :=
  ⟨claim4_autooff_once.1 22 0 { V7.initState with autoOffTimerHour := 22 } (by decide),
   claim4_autooff_once.2.1 [V7.Ev.tick 22 0, V7.Ev.tick 22 30]
      { V7.initState with autoOffTimerHour := 22 } 0 (by decide),
   (claim4_autooff_once.2.2.1 22 claim4V3On (by decide) (by decide)).1,
   ((claim4_autooff_once.2.2.1 22 claim4V3On (by decide) (by decide)).2.1 (by decide)).2.1,
   claim4_autooff_once.2.2.2 22 (V3.tick 22 claim4V3On).1 (by decide) (by decide)⟩

namespace V5

theorem hHoursStep_eq (ht : Bool) (s : State) :
    hHoursStep ht s = { s with current_H_hours := ht } := rfl

theorem autoOnStep_fire5 (hour : ℕ) (s : State) (h : (hour : ℤ) = s.autoOnTimerHour) :
    autoOnStep hour s =
      ({ s with remainModeMs := 0, systemUpMs := 0, currentMode := Mode.cooling,
                daikin_boost := false, rht_control_on := true, currentACsetting := 26,
                autoOnTimerHour := 25 },
       [(Src.schedOn, Cmd.extFanOff), (Src.schedOn, Cmd.setTemp 26),
        (Src.schedOn, Cmd.setFan 6), (Src.schedOn, Cmd.acOn)]) := by
  unfold autoOnStep daikin_ac_on_set_temp daikin_ac_on
  rw [if_pos h]
  simp

theorem autoOnStep_miss5 (hour : ℕ) (s : State) (h : (hour : ℤ) ≠ s.autoOnTimerHour) :
    autoOnStep hour s = (s, []) := by
  unfold autoOnStep
  rw [if_neg h]

theorem autoOffStep_miss5 (hour : ℕ) (s : State) (h : (hour : ℤ) ≠ s.autoOffTimerHour) :
    autoOffStep hour s = (s, []) := by
  unfold autoOffStep
  rw [if_neg h]

theorem autoOffStep_fire (hour : ℕ) (s : State) (heq : (hour : ℤ) = s.autoOffTimerHour) :
    autoOffStep hour s =
      ({ s with rht_control_on := false, daikin_boost := false, currentMode := Mode.off,
                remainModeMs := 0, autoOffTimerHour := 25 },
       [(Src.schedOff, Cmd.acOff), (Src.schedOff, Cmd.extFanOn)]) := by
  unfold autoOffStep daikin_off
  rw [if_pos heq]
  simp

theorem ctrlStep_dwell_idle5 (lastMin : ℕ) (ht : Bool) (s : State) (h : lastMin < 10) :
    ctrlStep lastMin ht s = (s, []) := by
  unfold ctrlStep
  split_ifs <;> first | rfl | omega

theorem ctrlStep_off_idle5 (lastMin : ℕ) (ht : Bool) (s : State)
    (h : s.rht_control_on = false) :
    ctrlStep lastMin ht s = (s, []) := by
  unfold ctrlStep
  rw [if_neg]
  simp [h]

theorem ctrlStep_no_reading_idle (lastMin : ℕ) (ht : Bool) (s : State)
    (h : s.currentTemp = 0) :
    ctrlStep lastMin ht s = (s, []) := by
  unfold ctrlStep
  rw [if_neg]
  simp [h]

end V5

/-- C3 (counterexample): in variant 5, with `autoOnTimerHour` armed at 22 and
the clock at hour 22, the trigger tick ends with the unit in Cooling mode (not
Off) and the dwell timer at zero — the next automatic decision is dwell-blocked
for `REMAIN_MODE_TIME = 10` minutes rather than executing immediately. -/
theorem claim3_counterexample :
    (V5.tick 22 { V5.initState with autoOnTimerHour := 22 }).1.currentMode =
      Mode.cooling ∧
    (V5.tick 22 { V5.initState with autoOnTimerHour := 22 }).1.currentMode ≠ Mode.off ∧
    (V5.tick 22 { V5.initState with autoOnTimerHour := 22 }).1.remainModeMs = 0 ∧
    ¬ 10 ≤ (V5.tick 22 { V5.initState with autoOnTimerHour := 22 }).1.remainModeMs
        / 60000 ∧
    (V5.tick 22 { V5.initState with autoOnTimerHour := 22 }).1.rht_control_on = true ∧
    (V5.tick 22 { V5.initState with autoOnTimerHour := 22 }).1.autoOnTimerHour = 25 := by
  decide

/-- C3 (amended): in variant 3, a tick at an armed `autoOnHour` (off slot not
simultaneously matching, decision still dwell-blocked at the start of the tick)
force-enables auto-control, resets the mode to Off, sets the dwell timer to
`REMAIN_MODE_TIME` minutes so the next decision is no longer dwell-blocked, and
clears the trigger to 25; the on-check precedes the off-check, so when
`autoOnHour = autoOffHour` both fire and the net effect is control disabled
with the unit commanded Off (OFF wins).  In variant 5 the on-trigger behaves
differently: it additionally restores the default set-point and issues an
AC-on, ending the tick in Cooling with the dwell timer at zero (OFF still wins
when both slots match). -/
theorem claim3_autoon_trigger :
    (∀ (hour : ℕ) (s : V3.State), (hour : ℤ) = s.autoOnTimerHour →
        (hour : ℤ) ≠ s.autoOffTimerHour → s.remainModeMs / 60000 < 5 →
        (V3.tick hour s).1.rht_control_on = true ∧
        (V3.tick hour s).1.currentMode = Mode.off ∧
        (V3.tick hour s).1.autoOnTimerHour = 25 ∧
        (V3.tick hour s).1.remainModeMs = 5 * 60000 ∧
        5 ≤ (V3.tick hour s).1.remainModeMs / 60000) ∧
    (∀ (hour : ℕ) (s : V3.State), (hour : ℤ) = s.autoOnTimerHour →
        (hour : ℤ) = s.autoOffTimerHour →
        (V3.tick hour s).1.rht_control_on = false ∧
        (V3.tick hour s).1.currentMode = Mode.off ∧
        (V3.tick hour s).1.autoOnTimerHour = 25 ∧
        (V3.tick hour s).1.autoOffTimerHour = 25 ∧
        (Src.schedOff, Cmd.acOff) ∈ (V3.tick hour s).2) ∧
    (∀ (hour : ℕ) (s : V5.State), (hour : ℤ) = s.autoOnTimerHour →
        (hour : ℤ) ≠ s.autoOffTimerHour → s.remainModeMs / 60000 < 10 →
        (V5.tick hour s).1.rht_control_on = true ∧
        (V5.tick hour s).1.currentMode = Mode.cooling ∧
        (V5.tick hour s).1.autoOnTimerHour = 25 ∧
        (V5.tick hour s).1.remainModeMs = 0) ∧
    (∀ (hour : ℕ) (s : V5.State), (hour : ℤ) = s.autoOnTimerHour →
        (hour : ℤ) = s.autoOffTimerHour →
        (V5.tick hour s).1.rht_control_on = false ∧
        (V5.tick hour s).1.currentMode = Mode.off ∧
        (Src.schedOff, Cmd.acOff) ∈ (V5.tick hour s).2) := by
  refine ⟨?_, ?_, ?_, ?_⟩
  · intro hour s hOn hOff hdw
    simp only [V3.tick, V3.hHoursStep_fst]
    rw [V3.autoOnStep_fire hour]
    rw [V3.autoOffStep_miss hour]
    rw [V3.ctrlStep_dwell_idle]
    · exact ⟨rfl, rfl, rfl, rfl, by norm_num⟩
    · split_ifs <;> omega
    · exact hOff
    · exact hOn
  · intro hour s hOn hOff
    simp only [V3.tick, V3.hHoursStep_fst]
    rw [V3.autoOnStep_fire hour]
    rw [V3.autoOffStep_fire_on hour]
    rw [V3.ctrlStep_off_idle]
    · refine ⟨rfl, rfl, rfl, rfl, by simp⟩
    · rfl
    · exact hOff
    · rfl
    · exact hOn
  · intro hour s hOn hOff hdw
    simp only [V5.tick, V5.hHoursStep_eq]
    rw [V5.autoOnStep_fire5 hour]
    rw [V5.autoOffStep_miss5 hour]
    rw [V5.ctrlStep_dwell_idle5]
    · exact ⟨rfl, rfl, rfl, rfl⟩
    · omega
    · exact hOff
    · exact hOn
  · intro hour s hOn hOff
    simp only [V5.tick, V5.hHoursStep_eq]
    rw [V5.autoOnStep_fire5 hour]
    rw [V5.autoOffStep_fire hour]
    rw [V5.ctrlStep_off_idle5]
    · refine ⟨rfl, rfl, by simp⟩
    · rfl
    · exact hOff
    · exact hOn

/-- Concrete variant-3 state with the on trigger armed at hour 21. -/
def claim3V3On : V3.State := { V3.initState with autoOnTimerHour := 21 }

/-- Concrete variant-3 state with both triggers armed at hour 21. -/
def claim3V3Both : V3.State :=
  { V3.initState with autoOnTimerHour := 21, autoOffTimerHour := 21 }

/-- Concrete variant-5 state with the on trigger armed at hour 21. -/
def claim3V5On : V5.State := { V5.initState with autoOnTimerHour := 21 }

/-- Concrete variant-5 state with both triggers armed at hour 21. -/
def claim3V5Both : V5.State :=
  { V5.initState with autoOnTimerHour := 21, autoOffTimerHour := 21 }

/-- Witness for the amended C3 at concrete armed states. -/
theorem claim3_autoon_trigger_witness :
    ((V3.tick 21 claim3V3On).1.rht_control_on = true ∧
     (V3.tick 21 claim3V3On).1.currentMode = Mode.off ∧
     (V3.tick 21 claim3V3On).1.autoOnTimerHour = 25 ∧
     (V3.tick 21 claim3V3On).1.remainModeMs = 5 * 60000 ∧
     5 ≤ (V3.tick 21 claim3V3On).1.remainModeMs / 60000) ∧
    ((V3.tick 21 claim3V3Both).1.rht_control_on = false ∧
     (V3.tick 21 claim3V3Both).1.currentMode = Mode.off ∧
     (V3.tick 21 claim3V3Both).1.autoOnTimerHour = 25 ∧
     (V3.tick 21 claim3V3Both).1.autoOffTimerHour = 25 ∧
     (Src.schedOff, Cmd.acOff) ∈ (V3.tick 21 claim3V3Both).2) ∧
    ((V5.tick 21 claim3V5On).1.rht_control_on = true ∧
     (V5.tick 21 claim3V5On).1.currentMode = Mode.cooling ∧
     (V5.tick 21 claim3V5On).1.autoOnTimerHour = 25 ∧
     (V5.tick 21 claim3V5On).1.remainModeMs = 0) ∧
    ((V5.tick 21 claim3V5Both).1.rht_control_on = false ∧
     (V5.tick 21 claim3V5Both).1.currentMode = Mode.off ∧
     (Src.schedOff, Cmd.acOff) ∈ (V5.tick 21 claim3V5Both).2) :=
  ⟨claim3_autoon_trigger.1 21 claim3V3On (by decide) (by decide) (by decide),
   claim3_autoon_trigger.2.1 21 claim3V3Both (by decide) (by decide),
   claim3_autoon_trigger.2.2.1 21 claim3V5On (by decide) (by decide) (by decide),
   claim3_autoon_trigger.2.2.2 21 claim3V5Both (by decide) (by decide)⟩

/-- C8: in variant 3, with control enabled, boost off, no schedule slot firing,
dwell elapsed, and the heat index at or above the cold threshold, a temperature
reading exactly equal to the dehumidify threshold resolves to Dehumidify
eligibility (the `temp <= dehTemp` comparison is inclusive): the tick ends in
Dehumidifier mode, switching to it (one `atm1` command from the hysteresis
block) when it was not already active, and issuing nothing when it was. -/
theorem claim8_boundary_dehumidify (hour : ℕ) (s : V3.State)
    (hh : hour ≤ 23) (hOn : s.autoOnTimerHour = 25) (hOff : s.autoOffTimerHour = 25)
    (hrht : s.rht_control_on = true) (hboost : s.daikin_boost = false)
    (hdw : (if s.currentMode = Mode.dehumidifier then 15 else 5) ≤
            s.remainModeMs / 60000)
    (hhi : (if decide (3 ≤ hour ∧ hour < 6) then s.coldTempHiH else s.coldTempHi) ≤
            s.currentHI)
    (htemp : s.currentTemp =
            (if decide (3 ≤ hour ∧ hour < 6) = true then V3.DEH_TEMP_H else V3.DEH_TEMP)) :
    (V3.tick hour s).1.currentMode = Mode.dehumidifier ∧
    (s.currentMode ≠ Mode.dehumidifier →
      ((V3.tick hour s).2.filter fun pc => decide (pc.1 = Src.auto)) =
        [(Src.auto, Cmd.dehOn)]) ∧
    (s.currentMode = Mode.dehumidifier →
      ((V3.tick hour s).2.filter fun pc => decide (pc.1 = Src.auto)) = []) := by
  have hne : ∀ z : ℤ, z = 25 → (hour : ℤ) ≠ z := by
    intro z hz
    omega
  simp only [V3.tick, V3.hHoursStep_fst]
  rw [V3.autoOnStep_miss hour]
  rw [V3.autoOffStep_miss hour]
  rw [V3.ctrlStep_deh_window]
  · by_cases hm : s.currentMode = Mode.dehumidifier
    · rw [if_neg (by simpa using hm)]
      refine ⟨hm, fun hc => absurd hm hc, fun _ => ?_⟩
      simp [List.filter_append, V3.hHoursStep_no_auto]
    · rw [if_pos (by simpa using hm)]
      refine ⟨rfl, fun _ => ?_, fun hc => absurd hc hm⟩
      simp [List.filter_append, V3.hHoursStep_no_auto]
  · exact hrht
  · exact hboost
  · exact hdw
  · exact hhi
  · exact le_of_eq htemp
  · exact hne _ hOff
  · exact hne _ hOn

/-- Concrete variant-3 state for the C8 witness: cooling at the normal-hours
boundary 26.50 °C with heat index above the cold threshold. -/
def claim8State : V3.State :=
  { V3.initState with currentMode := Mode.cooling, remainModeMs := 300000,
                      rht_control_on := true, currentTemp := V3.DEH_TEMP,
                      currentRh := 60, currentHI := 25 }

/-- Witness for C8: at noon (outside H hours), temperature exactly 26.50 °C. -/
theorem claim8_boundary_dehumidify_witness :
    (V3.tick 12 claim8State).1.currentMode = Mode.dehumidifier ∧
    (claim8State.currentMode ≠ Mode.dehumidifier →
      ((V3.tick 12 claim8State).2.filter fun pc => decide (pc.1 = Src.auto)) =
        [(Src.auto, Cmd.dehOn)]) ∧
    (claim8State.currentMode = Mode.dehumidifier →
      ((V3.tick 12 claim8State).2.filter fun pc => decide (pc.1 = Src.auto)) = []) :=
  claim8_boundary_dehumidify 12 claim8State (by decide) (by decide) (by decide)
    (by decide) (by decide) (by decide) (by decide) (by decide)

/-! ### Variant 2 (`src/Particle_O2_Daikin_2/Daikin_Control_Particle.ino`) -/

namespace V2

/-- `DEH_TEMP` = 26.00 °C. -/
def DEH_TEMP : ℚ := 26

/-- `COLD_TEMP` = 24.00 °C. -/
def COLD_TEMP : ℚ := 24

/-- Control-relevant globals of variant 2. -/
structure State where
  currentMode : Mode
  remainModeMs : ℕ
  systemUpMs : ℕ
  currentTemp : ℚ
  currentRh : ℚ
  currentHI : ℚ
  currentReadCount : ℕ
  current_fan_mode_on : Bool
  daikin_boost : Bool
  rht_control_on : Bool
deriving DecidableEq, Repr

/-- State after `setup()`. -/
def initState : State where
  currentMode := .off
  remainModeMs := 0
  systemUpMs := 0
  currentTemp := 0
  currentRh := 0
  currentHI := 0
  currentReadCount := 0
  current_fan_mode_on := false
  daikin_boost := false
  rht_control_on := false

/-- `fan_on()` (external fan, flag-guarded). -/
def fan_on (s : State) : State × List Cmd :=
  if s.current_fan_mode_on = false then
    ({ s with current_fan_mode_on := true }, [Cmd.extFanOn])
  else (s, [])

/-- `fan_off()` (external fan, flag-guarded). -/
def fan_off (s : State) : State × List Cmd :=
  if s.current_fan_mode_on = true then
    ({ s with current_fan_mode_on := false }, [Cmd.extFanOff])
  else (s, [])

/-- `daikin_fan_on()`: `ate1`, fan-only mode, dwell reset. -/
def daikin_fan_on (s : State) : State × List Cmd :=
  ({ s with currentMode := .fanOnly, remainModeMs := 0 }, [Cmd.fanOnlyOn])

/-- `daikin_ac_on()`: `atc1`, cooling mode, dwell reset. -/
def daikin_ac_on (s : State) : State × List Cmd :=
  ({ s with currentMode := .cooling, remainModeMs := 0 }, [Cmd.acOn])

/-- `daikin_dehumidifier_on()`: `atm1`, dehumidifier mode, dwell reset. -/
def daikin_dehumidifier_on (s : State) : State × List Cmd :=
  ({ s with currentMode := .dehumidifier, remainModeMs := 0 }, [Cmd.dehOn])

/-- Environmental Control block (`loop`, lines 430–483): the mode decision has
no "reading obtained" gate in this variant; afterwards the external fan is
driven from the current mode. -/
def ctrlStep (lastMin : ℕ) (s : State) : State × List (Src × Cmd) :=
  if s.rht_control_on = true ∧ s.daikin_boost = false then
    let d :=
      if 25 ≤ lastMin then
        if s.currentMode ≠ Mode.cooling ∧ DEH_TEMP < s.currentTemp then
          daikin_ac_on s
        else if s.currentMode ≠ Mode.dehumidifier ∧
            COLD_TEMP ≤ s.currentTemp ∧ s.currentTemp ≤ DEH_TEMP then
          daikin_dehumidifier_on s
        else if s.currentMode ≠ Mode.fanOnly ∧ s.currentTemp < COLD_TEMP then
          daikin_fan_on s
        else (s, [])
      else (s, [])
    let f :=
      if d.1.current_fan_mode_on = false then
        if d.1.currentMode = Mode.fanOnly ∧ DEH_TEMP < d.1.currentTemp then
          fan_on d.1
        else (d.1, [])
      else
        if d.1.currentMode ≠ Mode.fanOnly then fan_off d.1 else (d.1, [])
    (f.1, d.2.map (fun c => (Src.auto, c)) ++ f.2.map (fun c => (Src.auto, c)))
  else (s, [])

end V2

/-- Variant-2 state with auto control enabled, the dwell timer elapsed and the
readings still at their initial zero. -/
def claim7V2State : V2.State :=
  { V2.initState with rht_control_on := true, remainModeMs := 25 * 60000 }

/-- Variant-7 state with auto control enabled, the dwell timer elapsed and the
readings still at their initial zero. -/
def claim7V7State : V7.State :=
  { V7.initState with rht_control_on := true, remainModeMs := 3600000 }

/-- Variant-5 state with auto control enabled, the dwell timer elapsed and the
readings still at their initial zero. -/
def claim7V5State : V5.State :=
  { V5.initState with rht_control_on := true, remainModeMs := 3600000 }

/-- C7 (counterexample): in variant 2, with auto-control enabled, boost off and
the dwell elapsed, a decision tick whose stored temperature is still the
initial 0 (never sampled) issues a fan-only mode command: `0 < COLD_TEMP`
selects the `daikin_fan_on` branch — the hysteresis engine is not suppressed
by a zero reading in this variant. -/
theorem claim7_counterexample :
    (V2.ctrlStep 25 claim7V2State).2 = [(Src.auto, Cmd.fanOnlyOn)] ∧
    claim7V2State.currentTemp = 0 ∧
    (V2.ctrlStep 25 claim7V2State).1.currentMode = Mode.fanOnly := by
  decide

/-- C7 (amended): variants whose decision block is gated on a nonzero reading
do suppress automatic commands while the stored temperature is zero — variant 7
requires `currentTemp > 0` and variant 5 requires both `currentHI > 0` and
`currentTemp > 0` — but variant 2 has no such gate and can issue a fan-only
command with a zero reading (see the counterexample). -/
theorem claim7_zero_reading_suppression :
    (∀ (hour minute : ℕ) (s : V7.State), s.currentTemp = 0 →
        ((V7.tick hour minute s).2.any fun pc => decide (pc.1 = Src.auto)) = false) ∧
    (∀ (hour : ℕ) (s : V5.State), s.currentTemp = 0 →
        ((V5.tick hour s).2.any fun pc => decide (pc.1 = Src.auto)) = false) := by
  constructor
  · intro hour minute s h
    simp only [V7.tick]
    rw [V7.ctrlStep_no_reading]
    · simp [List.any_append, V7.pauseStep_no_auto, V7.autoOffStep_no_auto]
    · rw [V7.autoOffStep_temp, V7.reenableStep_temp, V7.pauseStep_temp]
      exact h
  · intro hour s h
    simp only [V5.tick, V5.hHoursStep_eq]
    by_cases hOn : (hour : ℤ) = s.autoOnTimerHour
    · rw [V5.autoOnStep_fire5 hour]
      · by_cases hOff : (hour : ℤ) = s.autoOffTimerHour
        · rw [V5.autoOffStep_fire hour]
          · rw [V5.ctrlStep_off_idle5]
            · simp
            · rfl
          · exact hOff
        · rw [V5.autoOffStep_miss5 hour]
          · rw [V5.ctrlStep_no_reading_idle]
            · simp
            · exact h
          · exact hOff
      · exact hOn
    · rw [V5.autoOnStep_miss5 hour]
      · by_cases hOff : (hour : ℤ) = s.autoOffTimerHour
        · rw [V5.autoOffStep_fire hour]
          · rw [V5.ctrlStep_off_idle5]
            · simp
            · rfl
          · exact hOff
        · rw [V5.autoOffStep_miss5 hour]
          · rw [V5.ctrlStep_no_reading_idle]
            · simp
            · exact h
          · exact hOff
      · exact hOn

/-- Witness for the amended C7: never-sampled states of variants 7 and 5 with
control enabled and the dwell timer far past its minimum. -/
theorem claim7_zero_reading_suppression_witness :
    ((V7.tick 12 0 claim7V7State).2.any fun pc => decide (pc.1 = Src.auto)) = false ∧
    ((V5.tick 12 claim7V5State).2.any fun pc => decide (pc.1 = Src.auto)) = false :=
  ⟨claim7_zero_reading_suppression.1 12 0 claim7V7State (by decide),
   claim7_zero_reading_suppression.2 12 claim7V5State (by decide)⟩

namespace V1

theorem windowStep_spec (offOK : Bool) (s : State) :
    windowStep offOK s =
        ({ s with current_temp_mode1 := false }, [(Src.hHours, Cmd.setTemp 25)]) ∨
    windowStep offOK s =
        ({ s with current_temp_mode1 := true }, [(Src.hHours, Cmd.setTemp 24)]) ∨
    windowStep offOK s = (s, []) := by
  unfold windowStep
  split_ifs <;> simp

theorem windowStep_mode (offOK : Bool) (s : State) :
    (windowStep offOK s).1.currentMode = s.currentMode ∧
    (windowStep offOK s).1.keepOnOffMs = s.keepOnOffMs ∧
    (windowStep offOK s).1.rhtDisabled = s.rhtDisabled := by
  rcases windowStep_spec offOK s with h | h | h <;> rw [h] <;> exact ⟨rfl, rfl, rfl⟩

theorem windowStep_src (offOK : Bool) (s : State) (src : Src) (h : src ≠ Src.hHours) :
    ((windowStep offOK s).2.any fun pc => decide (pc.1 = src)) = false := by
  rcases windowStep_spec offOK s with hw | hw | hw <;> rw [hw] <;>
    simp <;> exact fun hh => h hh.symm

theorem mustOffStep_fire (lastMin : ℕ) (s : State)
    (h : s.currentMode ≠ Mode.off ∨ 25 ≤ lastMin) :
    (mustOffStep lastMin s).1.currentMode = Mode.off ∧
    (mustOffStep lastMin s).1.keepOnOffMs = 0 ∧
    (Src.mustOff, Cmd.acOff) ∈ (mustOffStep lastMin s).2 := by
  unfold mustOffStep daikin_off fan_off
  split_ifs <;> simp_all <;> split_ifs <;> simp_all

theorem mustOffStep_idle (lastMin : ℕ) (s : State) (hm : s.currentMode = Mode.off)
    (hl : ¬ 25 ≤ lastMin) : mustOffStep lastMin s = (s, []) := by
  unfold mustOffStep
  rw [if_neg (by simp [hm]), if_neg hl]

theorem mustOffStep_auto_free (lastMin : ℕ) (s : State) :
    ((mustOffStep lastMin s).2.any fun pc => decide (pc.1 = Src.auto)) = false := by
  unfold mustOffStep daikin_off fan_off
  split_ifs <;> simp

/-- Once `elapsed_must_off_timer` shows at least `MUST_OFF_TIMER = 720` minutes,
a variant-1 `loop` iteration reduces to the OFFOK-window step followed by the
must-off block; the hysteresis decision block is skipped entirely. -/
theorem tick_mustoff (hour minute : ℕ) (s : State)
    (hrht : s.rhtDisabled = false) (h720 : 720 ≤ s.mustOffMs / 60000) :
    (tick hour minute s).1 =
      (mustOffStep (s.keepOnOffMs / 60000)
        (windowStep (decide (240 ≤ hour * 60 + minute ∧ hour * 60 + minute ≤ 330)) s).1).1 ∧
    (tick hour minute s).2 =
      (windowStep (decide (240 ≤ hour * 60 + minute ∧ hour * 60 + minute ≤ 330)) s).2 ++
      (mustOffStep (s.keepOnOffMs / 60000)
        (windowStep (decide (240 ≤ hour * 60 + minute ∧ hour * 60 + minute ≤ 330)) s).1).2 := by
  simp only [tick]
  rw [if_pos ((windowStep_mode _ s).2.2.trans hrht)]
  rw [if_neg (by omega : ¬ s.mustOffMs / 60000 < 720), if_pos h720]
  simp

end V1

/-- Variant-1 state: control enabled, must-off timer at 720 minutes, unit still
cooling. -/
def claim10State : V1.State :=
  { V1.initState with rhtDisabled := false, currentMode := Mode.cooling }

/-- C10: in variant 1, once `elapsed_must_off_timer` reaches `MUST_OFF_TIMER`
= 720 minutes (with control enabled), a decision tick issues no automatic
hysteresis command, leaves the unit Off, commands Off when it was not Off,
re-issues Off when it was Off with the dwell timer at `KEEP_ONOFF_TIMER` = 25
minutes, stays silent on the must-off channel when the dwell timer is below 25
minutes, and a `daikin-auto` command resets the must-off timer to zero with
control re-enabled. -/
theorem claim10_must_off (hour minute : ℕ) (s : V1.State)
    (hrht : s.rhtDisabled = false) (h720 : 720 ≤ s.mustOffMs / 60000) :
    (((V1.tick hour minute s).2.any fun pc => decide (pc.1 = Src.auto)) = false) ∧
    (V1.tick hour minute s).1.currentMode = Mode.off ∧
    (s.currentMode ≠ Mode.off → (Src.mustOff, Cmd.acOff) ∈ (V1.tick hour minute s).2) ∧
    (s.currentMode = Mode.off → 25 ≤ s.keepOnOffMs / 60000 →
      (Src.mustOff, Cmd.acOff) ∈ (V1.tick hour minute s).2) ∧
    (s.currentMode = Mode.off → s.keepOnOffMs / 60000 < 25 →
      ((V1.tick hour minute s).2.any fun pc => decide (pc.1 = Src.mustOff)) = false) ∧
    (∀ t : V1.State, (V1.myHandler (strOf "daikin-auto") t).1.mustOffMs = 0 ∧
      (V1.myHandler (strOf "daikin-auto") t).1.rhtDisabled = false) := by
  obtain ⟨h1, h2⟩ := V1.tick_mustoff hour minute s hrht h720
  obtain ⟨hwm, hwk, -⟩ :=
    V1.windowStep_mode (decide (240 ≤ hour * 60 + minute ∧ hour * 60 + minute ≤ 330)) s
  refine ⟨?_, ?_, ?_, ?_, ?_, ?_⟩
  · rw [h2]
    simp [List.any_append, V1.mustOffStep_auto_free,
      V1.windowStep_src _ s Src.auto (by simp)]
  · rw [h1]
    by_cases hfire : s.currentMode ≠ Mode.off ∨ 25 ≤ s.keepOnOffMs / 60000
    · exact (V1.mustOffStep_fire _ _ (by rw [hwm]; exact hfire)).1
    · push_neg at hfire
      rw [V1.mustOffStep_idle _ _ (hwm.trans hfire.1) (by omega)]
      rw [hwm]
      exact hfire.1
  · intro hmode
    rw [h2]
    exact List.mem_append_right _
      (V1.mustOffStep_fire _ _ (Or.inl (by rw [hwm]; exact hmode))).2.2
  · intro _ hlast
    rw [h2]
    exact List.mem_append_right _
      (V1.mustOffStep_fire _ _ (Or.inr hlast)).2.2
  · intro hmode hlast
    rw [h2]
    rw [V1.mustOffStep_idle _ _ (hwm.trans hmode) (by omega)]
    simp [List.any_append, V1.windowStep_src _ s Src.mustOff (by simp)]
  · intro t
    constructor <;> rfl

/-- Witness for C10: a cooling state at the 720-minute mark is forced Off with
no automatic command, and `daikin-auto` clears the must-off timer. -/
theorem claim10_must_off_witness :
    claim10State.rhtDisabled = false ∧ 720 ≤ claim10State.mustOffMs / 60000 ∧
    (((V1.tick 12 0 claim10State).2.any fun pc => decide (pc.1 = Src.auto)) = false) ∧
    (V1.tick 12 0 claim10State).1.currentMode = Mode.off ∧
    (Src.mustOff, Cmd.acOff) ∈ (V1.tick 12 0 claim10State).2 ∧
    (V1.myHandler (strOf "daikin-auto") claim10State).1.mustOffMs = 0 :=
  ⟨by decide, by decide,
   (claim10_must_off 12 0 claim10State (by decide) (by decide)).1,
   (claim10_must_off 12 0 claim10State (by decide) (by decide)).2.1,
   (claim10_must_off 12 0 claim10State (by decide) (by decide)).2.2.1 (by decide),
   ((claim10_must_off 12 0 claim10State (by decide) (by decide)).2.2.2.2.2 claim10State).1⟩
